import Mathlib

/-!
Verification development for the GNSS-SDR channel FSM (channel_fsm.cc) and the
GPS CNAV navigation-message decoder (gps_cnav_navigation_message.cc).

The decoder works on 300-bit data pages.  A page is embedded as a total map
from bitset indices to bits: `bits i` is `data_bits[i]` of the C++
`std::bitset<GPS_CNAV_DATA_PAGE_BITS>`; index 0 is the least significant
(last) bit, index 299 the most significant (first) bit of the page.
uint64_t / int64_t arithmetic is embedded as Nat arithmetic on the 64-bit
pattern with an explicit `% 2 ^ 64` at each shift; `toInt64` reinterprets the
final pattern as the two's-complement value.  `double` fields are embedded as
exact rationals: every value the decoder stores in the claims below (integer
reads up to 33 bits scaled by power-of-two LSBs) is exactly representable in
an IEEE double, so the rational model agrees bit-for-bit with the C++ one.
-/

/-- GPS_CNAV_DATA_PAGE_BITS = 300 (number of bits of a CNAV data page). -/
def GPS_CNAV_DATA_PAGE_BITS : Int := 300

/-- A 300-bit CNAV data page, as the underlying `std::bitset`:
`bits i` is bit `i` of the bitset (index 299 = first/most significant bit of
the page, index 0 = last bit).  The map is total; the decoder only ever reads
indices determined by its (in-range) field catalogue. -/
abbrev Page := Int → Bool

/-- Numeric value of one bit. -/
def bitVal (b : Bool) : Nat := if b then 1 else 0

/-- Reinterpret a 64-bit pattern (a Nat below `2 ^ 64`) as a two's-complement
int64_t value. -/
def toInt64 (v : Nat) : Int :=
  if v < 2 ^ 63 then (v : Int) else (v : Int) - 2 ^ 64

/-- The C++ cast `static_cast<int32_t>` applied to a `uint64_t`: truncate to 32 bits and
reinterpret as two's complement. -/
def toInt32u (n : Nat) : Int :=
  let r : Nat := n % 2 ^ 32
  if r < 2 ^ 31 then (r : Int) else (r : Int) - 2 ^ 32

/-- The C++ cast `static_cast<int32_t>` applied to an `int64_t`: truncate to 32 bits and
reinterpret as two's complement.  (`Int.emod` with a positive modulus already
lands in `[0, 2^32)`.) -/
def toInt32s (x : Int) : Int :=
  let r := x % 2 ^ 32
  if r < 2 ^ 31 then r else r - 2 ^ 32

/-- Gps_CNAV_Navigation_Message::read_navigation_bool: value of the page bit
`data_bits[GPS_CNAV_DATA_PAGE_BITS - parameter[0].first]`.  (`parameter` is
never empty in the catalogue; the empty case is given the vacuous value
`false`.) -/
def read_navigation_bool (bits : Page) (parameter : List (Int × Int)) : Bool :=
  match parameter with
  | [] => false
  | p :: _ => bits (GPS_CNAV_DATA_PAGE_BITS - p.1)

/-- Gps_CNAV_Navigation_Message::read_navigation_unsigned: for each slice
`(first, second)` and each `j < second`, shift left (uint64_t: `% 2 ^ 64`)
and insert bit `data_bits[GPS_CNAV_DATA_PAGE_BITS - first - j]`. -/
def read_navigation_unsigned (bits : Page) (parameter : List (Int × Int)) : Nat :=
  parameter.foldl
    (fun value p =>
      (List.range p.2.toNat).foldl
        (fun v (j : Nat) =>
          v * 2 % 2 ^ 64 + bitVal (bits (GPS_CNAV_DATA_PAGE_BITS - p.1 - (j : Int))))
        value)
    0

/-- The 64-bit pattern computed by
Gps_CNAV_Navigation_Message::read_navigation_signed: the accumulator starts as
all-ones (`value ^= 0xFFFFFFFFFFFFFFFF`) when the sign bit
`data_bits[GPS_CNAV_DATA_PAGE_BITS - parameter[0].first]` is set and as 0
otherwise (`value &= 0`); each step shifts left (`value *= 2`), clears bit 0
(`value &= 0xFFFFFFFFFFFFFFFE`, rendered as subtracting `v % 2`) and inserts
the next page bit. -/
def read_navigation_signed_pattern (bits : Page) (parameter : List (Int × Int)) : Nat :=
  let init : Nat :=
    match parameter with
    | [] => 0
    | p :: _ => if bits (GPS_CNAV_DATA_PAGE_BITS - p.1) then 2 ^ 64 - 1 else 0
  parameter.foldl
    (fun value p =>
      (List.range p.2.toNat).foldl
        (fun v (j : Nat) =>
          (v * 2 % 2 ^ 64 - v * 2 % 2 ^ 64 % 2)
            + bitVal (bits (GPS_CNAV_DATA_PAGE_BITS - p.1 - (j : Int))))
        value)
    init

/-- Gps_CNAV_Navigation_Message::read_navigation_signed: the int64_t value of
the sign-extended pattern. -/
def read_navigation_signed (bits : Page) (parameter : List (Int × Int)) : Int :=
  toInt64 (read_navigation_signed_pattern bits parameter)

/-! ### Field descriptor catalogue and LSB scale factors

Modelled from the spec: the catalogue lives in the header GPS_CNAV.h, which is
not under src/; per the spec ("Field locations and LSBs are dictated by
IS-GPS-200K Appendix III; the Field Descriptor catalogue is the sole place
they appear") the positions and LSBs below follow IS-GPS-200K Appendix III.
Each descriptor is a list of `(start_bit, length)` slices, 1-based from the
most significant bit of the page. -/

/-- Modelled from the spec: PRN field, 6 bits. -/
def CNAV_PRN : List (Int × Int) := [(9, 6)]

/-- Modelled from the spec: message-type field, 6 bits. -/
def CNAV_MSG_TYPE : List (Int × Int) := [(15, 6)]

/-- Modelled from the spec: TOW count, 17 bits. -/
def CNAV_TOW : List (Int × Int) := [(21, 17)]

/-- Modelled from the spec: TOW LSB (seconds). -/
def CNAV_TOW_LSB : ℚ := 6

/-- Modelled from the spec: alert flag, 1 bit. -/
def CNAV_ALERT_FLAG : List (Int × Int) := [(38, 1)]

/-- Modelled from the spec: week number (type 10). -/
def CNAV_WN : List (Int × Int) := [(39, 13)]

/-- Modelled from the spec: signal health (type 10). -/
def CNAV_HEALTH : List (Int × Int) := [(52, 3)]

/-- Modelled from the spec: data predict time of week Top. -/
def CNAV_TOP1 : List (Int × Int) := [(55, 11)]

/-- Modelled from the spec: Top LSB. -/
def CNAV_TOP1_LSB : ℚ := 300

/-- Modelled from the spec: URA index (type 10, signed). -/
def CNAV_URA : List (Int × Int) := [(66, 5)]

/-- Modelled from the spec: Toe1 (type 10). -/
def CNAV_TOE1 : List (Int × Int) := [(71, 11)]

/-- Modelled from the spec: Toe1 LSB (300 s). -/
def CNAV_TOE1_LSB : ℚ := 300

/-- Modelled from the spec: semi-major-axis difference (type 10, signed). -/
def CNAV_DELTA_A : List (Int × Int) := [(82, 26)]

/-- Modelled from the spec: delta-A LSB. -/
def CNAV_DELTA_A_LSB : ℚ := 1 / 2 ^ 9

/-- Modelled from the spec: semi-major-axis rate (type 10, signed). -/
def CNAV_A_DOT : List (Int × Int) := [(108, 25)]

/-- Modelled from the spec: A-dot LSB. -/
def CNAV_A_DOT_LSB : ℚ := 1 / 2 ^ 21

/-- Modelled from the spec: value of the double constant GNSS_PI. -/
def GNSS_PI : ℚ := 3.1415926535898

/-- Modelled from the spec: mean motion difference (type 10, signed). -/
def CNAV_DELTA_N0 : List (Int × Int) := [(133, 17)]

/-- Modelled from the spec: delta-n0 LSB (semi-circles to radians). -/
def CNAV_DELTA_N0_LSB : ℚ := (1 / 2 ^ 44) * GNSS_PI

/-- Modelled from the spec: mean motion rate (type 10, signed). -/
def CNAV_DELTA_N0_DOT : List (Int × Int) := [(150, 23)]

/-- Modelled from the spec: delta-n0-dot LSB. -/
def CNAV_DELTA_N0_DOT_LSB : ℚ := (1 / 2 ^ 57) * GNSS_PI

/-- Modelled from the spec: mean anomaly M0 (type 10, signed). -/
def CNAV_M0 : List (Int × Int) := [(173, 33)]

/-- Modelled from the spec: M0 LSB. -/
def CNAV_M0_LSB : ℚ := (1 / 2 ^ 32) * GNSS_PI

/-- Modelled from the spec: eccentricity (type 10, unsigned). -/
def CNAV_E_ECCENTRICITY : List (Int × Int) := [(206, 33)]

/-- Modelled from the spec: eccentricity LSB. -/
def CNAV_E_ECCENTRICITY_LSB : ℚ := 1 / 2 ^ 34

/-- Modelled from the spec: argument of perigee (type 10, signed). -/
def CNAV_OMEGA : List (Int × Int) := [(239, 33)]

/-- Modelled from the spec: omega LSB. -/
def CNAV_OMEGA_LSB : ℚ := (1 / 2 ^ 32) * GNSS_PI

/-- Modelled from the spec: integrity status flag (type 10). -/
def CNAV_INTEGRITY_FLAG : List (Int × Int) := [(272, 1)]

/-- Modelled from the spec: L2C phasing flag (type 10). -/
def CNAV_L2_PHASING_FLAG : List (Int × Int) := [(273, 1)]

/-- Modelled from the spec: Toe2 (type 11). -/
def CNAV_TOE2 : List (Int × Int) := [(39, 11)]

/-- Modelled from the spec: Toe2 LSB (300 s). -/
def CNAV_TOE2_LSB : ℚ := 300

/-- Modelled from the spec: ascending node OMEGA0 (type 11, signed). -/
def CNAV_OMEGA0 : List (Int × Int) := [(50, 33)]

/-- Modelled from the spec: OMEGA0 LSB. -/
def CNAV_OMEGA0_LSB : ℚ := (1 / 2 ^ 32) * GNSS_PI

/-- Modelled from the spec: inclination i0 (type 11, signed). -/
def CNAV_I0 : List (Int × Int) := [(83, 33)]

/-- Modelled from the spec: i0 LSB. -/
def CNAV_I0_LSB : ℚ := (1 / 2 ^ 32) * GNSS_PI

/-- Modelled from the spec: rate of right ascension difference (type 11). -/
def CNAV_DELTA_OMEGA_DOT : List (Int × Int) := [(116, 17)]

/-- Modelled from the spec: delta-OMEGA-dot LSB. -/
def CNAV_DELTA_OMEGA_DOT_LSB : ℚ := (1 / 2 ^ 44) * GNSS_PI

/-- Modelled from the spec: inclination rate (type 11, signed). -/
def CNAV_I0_DOT : List (Int × Int) := [(133, 15)]

/-- Modelled from the spec: i0-dot LSB. -/
def CNAV_I0_DOT_LSB : ℚ := (1 / 2 ^ 44) * GNSS_PI

/-- Modelled from the spec: Cis harmonic (type 11, signed). -/
def CNAV_CIS : List (Int × Int) := [(148, 16)]

/-- Modelled from the spec: Cis LSB. -/
def CNAV_CIS_LSB : ℚ := 1 / 2 ^ 30

/-- Modelled from the spec: Cic harmonic (type 11, signed). -/
def CNAV_CIC : List (Int × Int) := [(164, 16)]

/-- Modelled from the spec: Cic LSB. -/
def CNAV_CIC_LSB : ℚ := 1 / 2 ^ 30

/-- Modelled from the spec: Crs harmonic (type 11, signed). -/
def CNAV_CRS : List (Int × Int) := [(180, 24)]

/-- Modelled from the spec: Crs LSB. -/
def CNAV_CRS_LSB : ℚ := 1 / 2 ^ 8

/-- Modelled from the spec: Crc harmonic (type 11, signed). -/
def CNAV_CRC : List (Int × Int) := [(204, 24)]

/-- Modelled from the spec: Crc LSB. -/
def CNAV_CRC_LSB : ℚ := 1 / 2 ^ 8

/-- Modelled from the spec: Cus harmonic (type 11, signed). -/
def CNAV_CUS : List (Int × Int) := [(228, 21)]

/-- Modelled from the spec: Cus LSB. -/
def CNAV_CUS_LSB : ℚ := 1 / 2 ^ 30

/-- Modelled from the spec: Cuc harmonic (type 11, signed). -/
def CNAV_CUC : List (Int × Int) := [(249, 21)]

/-- Modelled from the spec: Cuc LSB. -/
def CNAV_CUC_LSB : ℚ := 1 / 2 ^ 30

/-- Modelled from the spec: clock reference time Toc (types 30/33). -/
def CNAV_TOC : List (Int × Int) := [(61, 11)]

/-- Modelled from the spec: Toc LSB. -/
def CNAV_TOC_LSB : ℚ := 300

/-- Modelled from the spec: URA_NED0 index (type 30, signed). -/
def CNAV_URA_NED0 : List (Int × Int) := [(50, 5)]

/-- Modelled from the spec: URA_NED1 index (type 30, unsigned). -/
def CNAV_URA_NED1 : List (Int × Int) := [(55, 3)]

/-- Modelled from the spec: URA_NED2 index (type 30, unsigned). -/
def CNAV_URA_NED2 : List (Int × Int) := [(58, 3)]

/-- Modelled from the spec: clock coefficient Af0 (signed). -/
def CNAV_AF0 : List (Int × Int) := [(72, 26)]

/-- Modelled from the spec: Af0 LSB. -/
def CNAV_AF0_LSB : ℚ := 1 / 2 ^ 35

/-- Modelled from the spec: clock coefficient Af1 (signed). -/
def CNAV_AF1 : List (Int × Int) := [(98, 20)]

/-- Modelled from the spec: Af1 LSB. -/
def CNAV_AF1_LSB : ℚ := 1 / 2 ^ 48

/-- Modelled from the spec: clock coefficient Af2 (signed). -/
def CNAV_AF2 : List (Int × Int) := [(118, 10)]

/-- Modelled from the spec: Af2 LSB. -/
def CNAV_AF2_LSB : ℚ := 1 / 2 ^ 60

/-- Modelled from the spec: group delay TGD, 13 bits signed (type 30). -/
def CNAV_TGD : List (Int × Int) := [(128, 13)]

/-- Modelled from the spec: TGD LSB. -/
def CNAV_TGD_LSB : ℚ := 1 / 2 ^ 35

/-- Modelled from the spec: inter-signal correction ISCL1, 13 bits signed. -/
def CNAV_ISCL1 : List (Int × Int) := [(141, 13)]

/-- Modelled from the spec: ISCL1 LSB. -/
def CNAV_ISCL1_LSB : ℚ := 1 / 2 ^ 35

/-- Modelled from the spec: inter-signal correction ISCL2, 13 bits signed. -/
def CNAV_ISCL2 : List (Int × Int) := [(154, 13)]

/-- Modelled from the spec: ISCL2 LSB. -/
def CNAV_ISCL2_LSB : ℚ := 1 / 2 ^ 35

/-- Modelled from the spec: inter-signal correction ISCL5I, 13 bits signed. -/
def CNAV_ISCL5I : List (Int × Int) := [(167, 13)]

/-- Modelled from the spec: ISCL5I LSB. -/
def CNAV_ISCL5I_LSB : ℚ := 1 / 2 ^ 35

/-- Modelled from the spec: inter-signal correction ISCL5Q, 13 bits signed. -/
def CNAV_ISCL5Q : List (Int × Int) := [(180, 13)]

/-- Modelled from the spec: ISCL5Q LSB. -/
def CNAV_ISCL5Q_LSB : ℚ := 1 / 2 ^ 35

/-- Modelled from the spec: Klobuchar alpha0 (type 30, signed). -/
def CNAV_ALPHA0 : List (Int × Int) := [(193, 8)]

/-- Modelled from the spec: alpha0 LSB. -/
def CNAV_ALPHA0_LSB : ℚ := 1 / 2 ^ 30

/-- Modelled from the spec: Klobuchar alpha1 (type 30, signed). -/
def CNAV_ALPHA1 : List (Int × Int) := [(201, 8)]

/-- Modelled from the spec: alpha1 LSB. -/
def CNAV_ALPHA1_LSB : ℚ := 1 / 2 ^ 27

/-- Modelled from the spec: Klobuchar alpha2 (type 30, signed). -/
def CNAV_ALPHA2 : List (Int × Int) := [(209, 8)]

/-- Modelled from the spec: alpha2 LSB. -/
def CNAV_ALPHA2_LSB : ℚ := 1 / 2 ^ 24

/-- Modelled from the spec: Klobuchar alpha3 (type 30, signed). -/
def CNAV_ALPHA3 : List (Int × Int) := [(217, 8)]

/-- Modelled from the spec: alpha3 LSB. -/
def CNAV_ALPHA3_LSB : ℚ := 1 / 2 ^ 24

/-- Modelled from the spec: Klobuchar beta0 (type 30, signed). -/
def CNAV_BETA0 : List (Int × Int) := [(225, 8)]

/-- Modelled from the spec: beta0 LSB. -/
def CNAV_BETA0_LSB : ℚ := 2 ^ 11

/-- Modelled from the spec: Klobuchar beta1 (type 30, signed). -/
def CNAV_BETA1 : List (Int × Int) := [(233, 8)]

/-- Modelled from the spec: beta1 LSB. -/
def CNAV_BETA1_LSB : ℚ := 2 ^ 14

/-- Modelled from the spec: Klobuchar beta2 (type 30, signed). -/
def CNAV_BETA2 : List (Int × Int) := [(241, 8)]

/-- Modelled from the spec: beta2 LSB. -/
def CNAV_BETA2_LSB : ℚ := 2 ^ 16

/-- Modelled from the spec: Klobuchar beta3 (type 30, signed). -/
def CNAV_BETA3 : List (Int × Int) := [(249, 8)]

/-- Modelled from the spec: beta3 LSB. -/
def CNAV_BETA3_LSB : ℚ := 2 ^ 16

/-- Modelled from the spec: UTC coefficient A0 (type 33, signed). -/
def CNAV_A0 : List (Int × Int) := [(128, 16)]

/-- Modelled from the spec: A0 LSB. -/
def CNAV_A0_LSB : ℚ := 1 / 2 ^ 35

/-- Modelled from the spec: UTC coefficient A1 (type 33, signed). -/
def CNAV_A1 : List (Int × Int) := [(144, 13)]

/-- Modelled from the spec: A1 LSB. -/
def CNAV_A1_LSB : ℚ := 1 / 2 ^ 51

/-- Modelled from the spec: UTC coefficient A2 (type 33, signed). -/
def CNAV_A2 : List (Int × Int) := [(157, 7)]

/-- Modelled from the spec: A2 LSB. -/
def CNAV_A2_LSB : ℚ := 1 / 2 ^ 68

/-- Modelled from the spec: current leap seconds DeltaT_LS (type 33). -/
def CNAV_DELTA_TLS : List (Int × Int) := [(164, 8)]

/-- Modelled from the spec: DeltaT_LS LSB. -/
def CNAV_DELTA_TLS_LSB : ℚ := 1

/-- Modelled from the spec: UTC data reference time t_OT (type 33). -/
def CNAV_TOT : List (Int × Int) := [(172, 16)]

/-- Modelled from the spec: t_OT LSB. -/
def CNAV_TOT_LSB : ℚ := 2 ^ 4

/-- Modelled from the spec: UTC reference week WN_OT (type 33). -/
def CNAV_WN_OT : List (Int × Int) := [(188, 13)]

/-- Modelled from the spec: WN_OT LSB. -/
def CNAV_WN_OT_LSB : Int := 1

/-- Modelled from the spec: leap-second reference week WN_LSF (type 33). -/
def CNAV_WN_LSF : List (Int × Int) := [(201, 13)]

/-- Modelled from the spec: WN_LSF LSB. -/
def CNAV_WN_LSF_LSB : Int := 1

/-- Modelled from the spec: leap-second reference day DN (type 33). -/
def CNAV_DN : List (Int × Int) := [(214, 4)]

/-- Modelled from the spec: DN LSB. -/
def CNAV_DN_LSB : Int := 1

/-- Modelled from the spec: future leap seconds DeltaT_LSF (type 33). -/
def CNAV_DELTA_TLSF : List (Int × Int) := [(218, 8)]

/-- Modelled from the spec: DeltaT_LSF LSB. -/
def CNAV_DELTA_TLSF_LSB : ℚ := 1

/-! ### Records -/

/-- Modelled from the spec: the Gps_CNAV_Ephemeris record (its header is not
under src/).  It holds exactly the fields gps_cnav_navigation_message.cc
writes; numeric double fields are exact rationals, integer fields are Int,
flags are Bool.  Default values stand for the zero-initialised record. -/
structure Gps_CNAV_Ephemeris where
  i_satellite_PRN : Int := 0
  d_TOW : ℚ := 0
  b_alert_flag : Bool := false
  i_GPS_week : Int := 0
  i_signal_health : Int := 0
  d_Top : ℚ := 0
  d_URA0 : ℚ := 0
  d_URA1 : ℚ := 0
  d_URA2 : ℚ := 0
  d_Toe1 : ℚ := 0
  d_Toe2 : ℚ := 0
  d_DELTA_A : ℚ := 0
  d_A_DOT : ℚ := 0
  d_Delta_n : ℚ := 0
  d_DELTA_DOT_N : ℚ := 0
  d_M_0 : ℚ := 0
  d_e_eccentricity : ℚ := 0
  d_OMEGA : ℚ := 0
  b_integrity_status_flag : Bool := false
  b_l2c_phasing_flag : Bool := false
  d_OMEGA0 : ℚ := 0
  d_DELTA_OMEGA_DOT : ℚ := 0
  d_i_0 : ℚ := 0
  d_IDOT : ℚ := 0
  d_Cis : ℚ := 0
  d_Cic : ℚ := 0
  d_Crs : ℚ := 0
  d_Crc : ℚ := 0
  d_Cus : ℚ := 0
  d_Cuc : ℚ := 0
  d_Toc : ℚ := 0
  d_A_f0 : ℚ := 0
  d_A_f1 : ℚ := 0
  d_A_f2 : ℚ := 0
  d_TGD : ℚ := 0
  d_ISCL1 : ℚ := 0
  d_ISCL2 : ℚ := 0
  d_ISCL5I : ℚ := 0
  d_ISCL5Q : ℚ := 0
  deriving DecidableEq

/-- Modelled from the spec: the Gps_CNAV_Iono record (header not under src/):
the eight Klobuchar coefficients. -/
structure Gps_CNAV_Iono where
  d_alpha0 : ℚ := 0
  d_alpha1 : ℚ := 0
  d_alpha2 : ℚ := 0
  d_alpha3 : ℚ := 0
  d_beta0 : ℚ := 0
  d_beta1 : ℚ := 0
  d_beta2 : ℚ := 0
  d_beta3 : ℚ := 0
  deriving DecidableEq

/-- Modelled from the spec: the Gps_CNAV_Utc_Model record (header not under
src/), with its `valid` delivery flag. -/
structure Gps_CNAV_Utc_Model where
  valid : Bool := false
  d_A0 : ℚ := 0
  d_A1 : ℚ := 0
  d_A2 : ℚ := 0
  d_DeltaT_LS : ℚ := 0
  d_t_OT : ℚ := 0
  i_WN_T : Int := 0
  i_WN_LSF : Int := 0
  i_DN : Int := 0
  d_DeltaT_LSF : ℚ := 0
  deriving DecidableEq

/-- The mutable decoder state of Gps_CNAV_Navigation_Message: the four
freshness flags, the three accumulating records and the message-level TOW.
(The satellite position/velocity scratch fields, channel id and satellite
block table of the C++ class are omitted: no claimed operation reads or
writes them.) -/
structure Gps_CNAV_Navigation_Message where
  b_flag_ephemeris_1 : Bool := false
  b_flag_ephemeris_2 : Bool := false
  b_flag_iono_valid : Bool := false
  b_flag_utc_valid : Bool := false
  ephemeris_record : Gps_CNAV_Ephemeris := {}
  iono_record : Gps_CNAV_Iono := {}
  utc_model_record : Gps_CNAV_Utc_Model := {}
  d_TOW : ℚ := 0
  deriving DecidableEq

/-! ### decode_page -/

/-- Case 10 of decode_page (Ephemeris 1/2): each write mirrors one statement
of the C++ switch case, in order. -/
def decode_type10 (m : Gps_CNAV_Navigation_Message) (data_bits : Page) :
    Gps_CNAV_Navigation_Message :=
  let e := { m.ephemeris_record with
    i_GPS_week := toInt32u (read_navigation_unsigned data_bits CNAV_WN),
    i_signal_health := toInt32u (read_navigation_unsigned data_bits CNAV_HEALTH),
    d_Top := (toInt32u (read_navigation_unsigned data_bits CNAV_TOP1) : ℚ) * CNAV_TOP1_LSB,
    d_URA0 := (read_navigation_signed data_bits CNAV_URA : ℚ),
    d_Toe1 := (toInt32u (read_navigation_unsigned data_bits CNAV_TOE1) : ℚ) * CNAV_TOE1_LSB,
    d_DELTA_A := (read_navigation_signed data_bits CNAV_DELTA_A : ℚ) * CNAV_DELTA_A_LSB,
    d_A_DOT := (read_navigation_signed data_bits CNAV_A_DOT : ℚ) * CNAV_A_DOT_LSB,
    d_Delta_n := (read_navigation_signed data_bits CNAV_DELTA_N0 : ℚ) * CNAV_DELTA_N0_LSB,
    d_DELTA_DOT_N := (read_navigation_signed data_bits CNAV_DELTA_N0_DOT : ℚ) * CNAV_DELTA_N0_DOT_LSB,
    d_M_0 := (read_navigation_signed data_bits CNAV_M0 : ℚ) * CNAV_M0_LSB,
    d_e_eccentricity := (read_navigation_unsigned data_bits CNAV_E_ECCENTRICITY : ℚ) * CNAV_E_ECCENTRICITY_LSB,
    d_OMEGA := (read_navigation_signed data_bits CNAV_OMEGA : ℚ) * CNAV_OMEGA_LSB,
    b_integrity_status_flag := read_navigation_bool data_bits CNAV_INTEGRITY_FLAG,
    b_l2c_phasing_flag := read_navigation_bool data_bits CNAV_L2_PHASING_FLAG }
  { m with ephemeris_record := e, b_flag_ephemeris_1 := true }

/-- Case 11 of decode_page (Ephemeris 2/2). -/
def decode_type11 (m : Gps_CNAV_Navigation_Message) (data_bits : Page) :
    Gps_CNAV_Navigation_Message :=
  let e := { m.ephemeris_record with
    d_Toe2 := (toInt32u (read_navigation_unsigned data_bits CNAV_TOE2) : ℚ) * CNAV_TOE2_LSB,
    d_OMEGA0 := (read_navigation_signed data_bits CNAV_OMEGA0 : ℚ) * CNAV_OMEGA0_LSB,
    d_DELTA_OMEGA_DOT := (read_navigation_signed data_bits CNAV_DELTA_OMEGA_DOT : ℚ) * CNAV_DELTA_OMEGA_DOT_LSB,
    d_i_0 := (read_navigation_signed data_bits CNAV_I0 : ℚ) * CNAV_I0_LSB,
    d_IDOT := (read_navigation_signed data_bits CNAV_I0_DOT : ℚ) * CNAV_I0_DOT_LSB,
    d_Cis := (read_navigation_signed data_bits CNAV_CIS : ℚ) * CNAV_CIS_LSB,
    d_Cic := (read_navigation_signed data_bits CNAV_CIC : ℚ) * CNAV_CIC_LSB,
    d_Crs := (read_navigation_signed data_bits CNAV_CRS : ℚ) * CNAV_CRS_LSB,
    d_Crc := (read_navigation_signed data_bits CNAV_CRC : ℚ) * CNAV_CRC_LSB,
    d_Cus := (read_navigation_signed data_bits CNAV_CUS : ℚ) * CNAV_CUS_LSB,
    d_Cuc := (read_navigation_signed data_bits CNAV_CUC : ℚ) * CNAV_CUC_LSB }
  { m with ephemeris_record := e, b_flag_ephemeris_2 := true }

/-- Case 30 of decode_page (clock, iono, group delay).  Each of the five
group-delay fields is first read as a signed double; the sentinel check
`if (value < -4095.9) value = 0.0` runs BEFORE the LSB multiplication. -/
def decode_type30 (m : Gps_CNAV_Navigation_Message) (data_bits : Page) :
    Gps_CNAV_Navigation_Message :=
  let tgd0 : ℚ := (read_navigation_signed data_bits CNAV_TGD : ℚ)
  let tgd1 : ℚ := if tgd0 < -4095.9 then 0 else tgd0
  let iscl1a : ℚ := (read_navigation_signed data_bits CNAV_ISCL1 : ℚ)
  let iscl1b : ℚ := if iscl1a < -4095.9 then 0 else iscl1a
  let iscl2a : ℚ := (read_navigation_signed data_bits CNAV_ISCL2 : ℚ)
  let iscl2b : ℚ := if iscl2a < -4095.9 then 0 else iscl2a
  let iscl5ia : ℚ := (read_navigation_signed data_bits CNAV_ISCL5I : ℚ)
  let iscl5ib : ℚ := if iscl5ia < -4095.9 then 0 else iscl5ia
  let iscl5qa : ℚ := (read_navigation_signed data_bits CNAV_ISCL5Q : ℚ)
  let iscl5qb : ℚ := if iscl5qa < -4095.9 then 0 else iscl5qa
  let e := { m.ephemeris_record with
    d_Toc := (toInt32u (read_navigation_unsigned data_bits CNAV_TOC) : ℚ) * CNAV_TOC_LSB,
    d_URA0 := (read_navigation_signed data_bits CNAV_URA_NED0 : ℚ),
    d_URA1 := (read_navigation_unsigned data_bits CNAV_URA_NED1 : ℚ),
    d_URA2 := (read_navigation_unsigned data_bits CNAV_URA_NED2 : ℚ),
    d_A_f0 := (read_navigation_signed data_bits CNAV_AF0 : ℚ) * CNAV_AF0_LSB,
    d_A_f1 := (read_navigation_signed data_bits CNAV_AF1 : ℚ) * CNAV_AF1_LSB,
    d_A_f2 := (read_navigation_signed data_bits CNAV_AF2 : ℚ) * CNAV_AF2_LSB,
    d_TGD := tgd1 * CNAV_TGD_LSB,
    d_ISCL1 := iscl1b * CNAV_ISCL1_LSB,
    d_ISCL2 := iscl2b * CNAV_ISCL2_LSB,
    d_ISCL5I := iscl5ib * CNAV_ISCL5I_LSB,
    d_ISCL5Q := iscl5qb * CNAV_ISCL5Q_LSB }
  let io := { m.iono_record with
    d_alpha0 := (read_navigation_signed data_bits CNAV_ALPHA0 : ℚ) * CNAV_ALPHA0_LSB,
    d_alpha1 := (read_navigation_signed data_bits CNAV_ALPHA1 : ℚ) * CNAV_ALPHA1_LSB,
    d_alpha2 := (read_navigation_signed data_bits CNAV_ALPHA2 : ℚ) * CNAV_ALPHA2_LSB,
    d_alpha3 := (read_navigation_signed data_bits CNAV_ALPHA3 : ℚ) * CNAV_ALPHA3_LSB,
    d_beta0 := (read_navigation_signed data_bits CNAV_BETA0 : ℚ) * CNAV_BETA0_LSB,
    d_beta1 := (read_navigation_signed data_bits CNAV_BETA1 : ℚ) * CNAV_BETA1_LSB,
    d_beta2 := (read_navigation_signed data_bits CNAV_BETA2 : ℚ) * CNAV_BETA2_LSB,
    d_beta3 := (read_navigation_signed data_bits CNAV_BETA3 : ℚ) * CNAV_BETA3_LSB }
  { m with ephemeris_record := e, iono_record := io, b_flag_iono_valid := true }

/-- Case 33 of decode_page (clock and UTC). -/
def decode_type33 (m : Gps_CNAV_Navigation_Message) (data_bits : Page) :
    Gps_CNAV_Navigation_Message :=
  let e := { m.ephemeris_record with
    d_Top := (toInt32u (read_navigation_unsigned data_bits CNAV_TOP1) : ℚ) * CNAV_TOP1_LSB,
    d_Toc := (toInt32u (read_navigation_unsigned data_bits CNAV_TOC) : ℚ) * CNAV_TOC_LSB,
    d_A_f0 := (read_navigation_signed data_bits CNAV_AF0 : ℚ) * CNAV_AF0_LSB,
    d_A_f1 := (read_navigation_signed data_bits CNAV_AF1 : ℚ) * CNAV_AF1_LSB,
    d_A_f2 := (read_navigation_signed data_bits CNAV_AF2 : ℚ) * CNAV_AF2_LSB }
  let u := { m.utc_model_record with
    d_A0 := (read_navigation_signed data_bits CNAV_A0 : ℚ) * CNAV_A0_LSB,
    d_A1 := (read_navigation_signed data_bits CNAV_A1 : ℚ) * CNAV_A1_LSB,
    d_A2 := (read_navigation_signed data_bits CNAV_A2 : ℚ) * CNAV_A2_LSB,
    d_DeltaT_LS := (toInt32s (read_navigation_signed data_bits CNAV_DELTA_TLS) : ℚ) * CNAV_DELTA_TLS_LSB,
    d_t_OT := (toInt32s (read_navigation_signed data_bits CNAV_TOT) : ℚ) * CNAV_TOT_LSB,
    i_WN_T := toInt32s (read_navigation_signed data_bits CNAV_WN_OT) * CNAV_WN_OT_LSB,
    i_WN_LSF := toInt32s (read_navigation_signed data_bits CNAV_WN_LSF) * CNAV_WN_LSF_LSB,
    i_DN := toInt32s (read_navigation_signed data_bits CNAV_DN) * CNAV_DN_LSB,
    d_DeltaT_LSF := (toInt32s (read_navigation_signed data_bits CNAV_DELTA_TLSF) : ℚ) * CNAV_DELTA_TLSF_LSB }
  { m with ephemeris_record := e, utc_model_record := u, b_flag_utc_valid := true }

/-- Gps_CNAV_Navigation_Message::decode_page: always reads and stores the
common header (PRN, TOW scaled by its LSB, alert flag), then dispatches on
the 6-bit msg_type; unrecognized types fall through the default case and
change nothing further. -/
def decode_page (m : Gps_CNAV_Navigation_Message) (data_bits : Page) :
    Gps_CNAV_Navigation_Message :=
  let PRN := toInt32u (read_navigation_unsigned data_bits CNAV_PRN)
  let tow : ℚ := (toInt32u (read_navigation_unsigned data_bits CNAV_TOW) : ℚ) * CNAV_TOW_LSB
  let alert_flag := read_navigation_bool data_bits CNAV_ALERT_FLAG
  let page_type := toInt32u (read_navigation_unsigned data_bits CNAV_MSG_TYPE)
  let m1 := { m with
    d_TOW := tow,
    ephemeris_record := { m.ephemeris_record with
      i_satellite_PRN := PRN, d_TOW := tow, b_alert_flag := alert_flag } }
  if page_type = 10 then decode_type10 m1 data_bits
  else if page_type = 11 then decode_type11 m1 data_bits
  else if page_type = 30 then decode_type30 m1 data_bits
  else if page_type = 33 then decode_type33 m1 data_bits
  else m1

/-! ### have_new_* predicates and getters -/

/-- Gps_CNAV_Navigation_Message::have_new_ephemeris: publish (and clear both
ephemeris flags) exactly when both halves were decoded and Toe1 equals Toe2.
The Bool is the C++ return value; the second component is the state of the
object after the call. -/
def have_new_ephemeris (m : Gps_CNAV_Navigation_Message) :
    Bool × Gps_CNAV_Navigation_Message :=
  if m.b_flag_ephemeris_1 = true ∧ m.b_flag_ephemeris_2 = true then
    if m.ephemeris_record.d_Toe1 = m.ephemeris_record.d_Toe2 then
      (true, { m with b_flag_ephemeris_1 := false, b_flag_ephemeris_2 := false })
    else (false, m)
  else (false, m)

/-- Gps_CNAV_Navigation_Message::get_ephemeris. -/
def get_ephemeris (m : Gps_CNAV_Navigation_Message) : Gps_CNAV_Ephemeris :=
  m.ephemeris_record

/-- Gps_CNAV_Navigation_Message::have_new_iono. -/
def have_new_iono (m : Gps_CNAV_Navigation_Message) :
    Bool × Gps_CNAV_Navigation_Message :=
  if m.b_flag_iono_valid = true then
    (true, { m with b_flag_iono_valid := false })
  else (false, m)

/-- Gps_CNAV_Navigation_Message::get_iono. -/
def get_iono (m : Gps_CNAV_Navigation_Message) : Gps_CNAV_Iono :=
  m.iono_record

/-- Gps_CNAV_Navigation_Message::have_new_utc_model. -/
def have_new_utc_model (m : Gps_CNAV_Navigation_Message) :
    Bool × Gps_CNAV_Navigation_Message :=
  if m.b_flag_utc_valid = true then
    (true, { m with b_flag_utc_valid := false })
  else (false, m)

/-- Gps_CNAV_Navigation_Message::get_utc_model: sets `valid` on the stored
record and returns it (first component: the returned snapshot; second: the
object state after the call). -/
def get_utc_model (m : Gps_CNAV_Navigation_Message) :
    Gps_CNAV_Utc_Model × Gps_CNAV_Navigation_Message :=
  let m1 := { m with utc_model_record := { m.utc_model_record with valid := true } }
  (m1.utc_model_record, m1)

/-! ### Channel lifecycle FSM (channel_fsm.cc)

The boost::statechart machine is embedded as an explicit state enum plus a
step function.  Capability providers and the dispatch queue are shared_ptr
handles, embedded as `Option Nat`: `none` is a null handle,
`some a` a handle on the heap object at address `a`.  `gr::msg_queue::make()`
allocates a fresh queue, so the machine carries an allocation counter
`next_addr`; every address handed out earlier is below it.  Entry and exit
actions record their externally visible side effects as a list of
`ControlAction`s; dereferencing a null handle is the `null_deref` crash
(undefined behaviour in the C++, a segfault in practice). -/

/-- The four states of the channel FSM (S0..S3 of channel_fsm.cc). -/
inductive ChannelState where
  | idle : ChannelState
  | acquiring : ChannelState
  | tracking : ChannelState
  | waiting : ChannelState
  deriving DecidableEq

/-- The five events of channel_fsm.cc. -/
inductive ChannelEvent where
  | start_acquisition : ChannelEvent
  | valid_acquisition : ChannelEvent
  | failed_acquisition_repeat : ChannelEvent
  | failed_acquisition_no_repeat : ChannelEvent
  | failed_tracking_standby : ChannelEvent
  deriving DecidableEq

/-- Externally visible side effects of entry/exit actions:
`acq_reset` is `acq_->reset()`, `trk_start_tracking` is
`trk_->start_tracking()`, and `queue_msg ch what` is
`queue_->handle(cmf->GetQueueMessage(ch, what))`. -/
inductive ControlAction where
  | acq_reset : ControlAction
  | trk_start_tracking : ControlAction
  | queue_msg : Nat → Nat → ControlAction
  deriving DecidableEq

/-- The only modelled failure: calling through a null shared_ptr. -/
inductive CrashKind where
  | null_deref : CrashKind
  deriving DecidableEq

/-- The ChannelFsm object: current state, the three shared_ptr members, the
channel id and the allocation counter for `gr::msg_queue::make()`. -/
structure ChannelFsm where
  state : ChannelState
  acq_ : Option Nat
  trk_ : Option Nat
  queue_ : Option Nat
  channel_ : Nat
  next_addr : Nat
  deriving DecidableEq

/-- gr::msg_queue::make(): allocate a fresh queue; returns its (new) address
and the advanced allocation counter. -/
def gr_msg_queue_make (next_addr : Nat) : Nat × Nat :=
  (next_addr, next_addr + 1)

/-- ChannelFsm::start_acquisition (the ACQUIRING entry action body):
`acq_->reset()`. -/
def ChannelFsm.start_acquisition (f : ChannelFsm) :
    Except CrashKind (List ControlAction × Nat) :=
  match f.acq_ with
  | none => Except.error CrashKind.null_deref
  | some _ => Except.ok ([ControlAction.acq_reset], f.next_addr)

/-- ChannelFsm::start_tracking (the TRACKING entry action body):
`trk_->start_tracking()`, then `if (queue_ != gr::msg_queue::make())`
enqueue message (channel_, 1).  Note the guard compares against a freshly
made queue. -/
def ChannelFsm.start_tracking (f : ChannelFsm) :
    Except CrashKind (List ControlAction × Nat) :=
  match f.trk_ with
  | none => Except.error CrashKind.null_deref
  | some _ =>
    let fresh := (gr_msg_queue_make f.next_addr).1
    let n1 := (gr_msg_queue_make f.next_addr).2
    if f.queue_ ≠ some fresh then
      match f.queue_ with
      | none => Except.error CrashKind.null_deref
      | some _ =>
        Except.ok ([ControlAction.trk_start_tracking,
                    ControlAction.queue_msg f.channel_ 1], n1)
    else Except.ok ([ControlAction.trk_start_tracking], n1)

/-- ChannelFsm::request_satellite (the WAITING entry action body):
`if (queue_ != gr::msg_queue::make())` enqueue message (channel_, 0). -/
def ChannelFsm.request_satellite (f : ChannelFsm) :
    Except CrashKind (List ControlAction × Nat) :=
  let fresh := (gr_msg_queue_make f.next_addr).1
  let n1 := (gr_msg_queue_make f.next_addr).2
  if f.queue_ ≠ some fresh then
    match f.queue_ with
    | none => Except.error CrashKind.null_deref
    | some _ => Except.ok ([ControlAction.queue_msg f.channel_ 0], n1)
  else Except.ok ([], n1)

/-- ChannelFsm::notify_stop_tracking (the TRACKING exit action body,
run by the ~channel_tracking_fsm_S2 destructor):
`if (queue_ != gr::msg_queue::make())` enqueue message (channel_, 2). -/
def ChannelFsm.notify_stop_tracking (f : ChannelFsm) :
    Except CrashKind (List ControlAction × Nat) :=
  let fresh := (gr_msg_queue_make f.next_addr).1
  let n1 := (gr_msg_queue_make f.next_addr).2
  if f.queue_ ≠ some fresh then
    match f.queue_ with
    | none => Except.error CrashKind.null_deref
    | some _ => Except.ok ([ControlAction.queue_msg f.channel_ 2], n1)
  else Except.ok ([], n1)

/-- Exit action of a state: only TRACKING has one (its destructor calls
notify_stop_tracking); the other states' destructors are empty. -/
def ChannelFsm.exit_action (f : ChannelFsm) : ChannelState →
    Except CrashKind (List ControlAction × Nat)
  | ChannelState.tracking => f.notify_stop_tracking
  | _ => Except.ok ([], f.next_addr)

/-- Entry action of a state: the state constructors call start_acquisition /
start_tracking / request_satellite; IDLE's constructor does nothing. -/
def ChannelFsm.entry_action (f : ChannelFsm) : ChannelState →
    Except CrashKind (List ControlAction × Nat)
  | ChannelState.acquiring => f.start_acquisition
  | ChannelState.tracking => f.start_tracking
  | ChannelState.waiting => f.request_satellite
  | ChannelState.idle => Except.ok ([], f.next_addr)

/-- A boost::statechart transition: destroy the current state (exit action),
then construct the target state (entry action); the event call returns after
both have run. -/
def ChannelFsm.transition_to (f : ChannelFsm) (target : ChannelState) :
    Except CrashKind (ChannelFsm × List ControlAction) :=
  match f.exit_action f.state with
  | Except.error c => Except.error c
  | Except.ok (a1, n1) =>
    let f1 : ChannelFsm := { f with next_addr := n1 }
    match f1.entry_action target with
    | Except.error c => Except.error c
    | Except.ok (a2, n2) =>
      Except.ok ({ f1 with state := target, next_addr := n2 }, a1 ++ a2)

/-- process_event: the reaction lists of channel_idle_fsm_S0,
channel_acquiring_fsm_S1, channel_tracking_fsm_S2 and channel_waiting_fsm_S3.
Events with no reaction in the current state are discarded (no transition,
no side effect). -/
def ChannelFsm.process_event (f : ChannelFsm) (e : ChannelEvent) :
    Except CrashKind (ChannelFsm × List ControlAction) :=
  match f.state, e with
  | ChannelState.idle, ChannelEvent.start_acquisition =>
    f.transition_to ChannelState.acquiring
  | ChannelState.acquiring, ChannelEvent.valid_acquisition =>
    f.transition_to ChannelState.tracking
  | ChannelState.acquiring, ChannelEvent.failed_acquisition_repeat =>
    f.transition_to ChannelState.acquiring
  | ChannelState.acquiring, ChannelEvent.failed_acquisition_no_repeat =>
    f.transition_to ChannelState.waiting
  | ChannelState.tracking, ChannelEvent.start_acquisition =>
    f.transition_to ChannelState.acquiring
  | ChannelState.tracking, ChannelEvent.failed_tracking_standby =>
    f.transition_to ChannelState.idle
  | ChannelState.waiting, ChannelEvent.start_acquisition =>
    f.transition_to ChannelState.acquiring
  | _, _ => Except.ok (f, [])

/-- ChannelFsm::ChannelFsm(): `acq_ = nullptr; trk_ = nullptr; channel_ = 0;`
(the queue_ member is a default-constructed, null sptr) followed by
`initiate()`, which synchronously enters the initial state.
Modelled from the spec for the part not under src/: the initial-state
designation of the state_machine lives in channel_fsm.h; per the spec the
initial state is IDLE, whose entry is a no-op. -/
def ChannelFsm.new : ChannelFsm :=
  { state := ChannelState.idle, acq_ := none, trk_ := none, queue_ := none,
    channel_ := 0, next_addr := 0 }

/-! ### Auxiliary notions for the bit-reader proofs, and concrete inputs -/

/-- One shift-and-insert step of the bit readers on the 64-bit accumulator. -/
def bitStep (v : Nat) (b : Bool) : Nat := v * 2 % 2 ^ 64 + bitVal b

/-- Unsigned binary value of a bit list, most significant bit first. -/
def natOfBits (l : List Bool) : Nat := l.foldl (fun a b => 2 * a + bitVal b) 0

/-- The page bits of one slice, most significant first. -/
def sliceBits (bits : Page) (p : Int × Int) : List Bool :=
  (List.range p.2.toNat).map
    (fun j : Nat => bits (GPS_CNAV_DATA_PAGE_BITS - p.1 - (j : Int)))

/-- All bits a field descriptor extracts, concatenated slice by slice. -/
def fieldBits (bits : Page) : List (Int × Int) → List Bool
  | [] => []
  | p :: ps => sliceBits bits p ++ fieldBits bits ps

/-- Total declared width of a field descriptor. -/
def totalWidth (parameter : List (Int × Int)) : Nat :=
  (parameter.map (fun p => p.2.toNat)).sum

/-- The all-zero data page. -/
def page_zero : Page := fun _ => false

/-- A page whose msg_type field reads 30 (bits 16..19 of the page set, i.e.
bitset indices 284..281) and whose TGD field holds the sentinel pattern
1000000000000 (its sign bit, page bit 128 = bitset index 172, set). -/
def page30a : Page := fun i =>
  decide (i = 284 ∨ i = 283 ∨ i = 282 ∨ i = 281 ∨ i = 172)

/-- A page whose msg_type field reads 30 and all other bits are zero. -/
def page30b : Page := fun i => decide (i = 284 ∨ i = 283 ∨ i = 282 ∨ i = 281)

/-- A page whose msg_type field reads 33 (= 0b100001: page bits 15 and 20,
i.e. bitset indices 285 and 280) and all other bits are zero. -/
def page33a : Page := fun i => decide (i = 285 ∨ i = 280)

/-- A page with only its first (most significant) bit set. -/
def page_msb : Page := fun i => decide (i = 299)

/-- Decoder state with both ephemeris halves seen and matching Toe1 = Toe2. -/
def m_match : Gps_CNAV_Navigation_Message :=
  { b_flag_ephemeris_1 := true, b_flag_ephemeris_2 := true,
    ephemeris_record := { d_Toe1 := 600, d_Toe2 := 600 } }

/-- Decoder state with both halves seen but Toe1 different from Toe2. -/
def m_mismatch : Gps_CNAV_Navigation_Message :=
  { b_flag_ephemeris_1 := true, b_flag_ephemeris_2 := true,
    ephemeris_record := { d_Toe1 := 300, d_Toe2 := 600 } }

/-- Decoder state with only the first ephemeris half seen. -/
def m_half : Gps_CNAV_Navigation_Message :=
  { b_flag_ephemeris_1 := true, b_flag_ephemeris_2 := false,
    ephemeris_record := { d_Toe1 := 600, d_Toe2 := 600 } }

/-- Decoder state with the iono and UTC freshness flags set. -/
def m_fresh : Gps_CNAV_Navigation_Message :=
  { b_flag_iono_valid := true, b_flag_utc_valid := true }

/-- Decoder state whose stored ephemeris has PRN 5. -/
def m_prn5 : Gps_CNAV_Navigation_Message :=
  { ephemeris_record := { i_satellite_PRN := 5 } }

/-- FSM in IDLE with acquisition, tracking and a queue (address 2,
allocation counter 3) bound; channel 7. -/
def fsm_idle_bound : ChannelFsm :=
  { state := ChannelState.idle, acq_ := some 0, trk_ := some 1,
    queue_ := some 2, channel_ := 7, next_addr := 3 }

/-- FSM in TRACKING with everything bound; channel 7. -/
def fsm_tracking_bound : ChannelFsm :=
  { state := ChannelState.tracking, acq_ := some 0, trk_ := some 1,
    queue_ := some 2, channel_ := 7, next_addr := 3 }

/-- FSM in ACQUIRING with providers bound but no dispatch queue. -/
def fsm_acquiring_noqueue : ChannelFsm :=
  { state := ChannelState.acquiring, acq_ := some 0, trk_ := some 1,
    queue_ := none, channel_ := 7, next_addr := 2 }

/-- FSM in IDLE with no acquisition provider bound. -/
def fsm_idle_noacq : ChannelFsm :=
  { state := ChannelState.idle, acq_ := none, trk_ := some 1,
    queue_ := some 0, channel_ := 7, next_addr := 1 }

/-- FSM in ACQUIRING with no tracking provider bound. -/
def fsm_acquiring_notrk : ChannelFsm :=
  { state := ChannelState.acquiring, acq_ := some 0, trk_ := none,
    queue_ := some 0, channel_ := 7, next_addr := 1 }

/-- FSM in ACQUIRING with tracking bound but no queue (distinct input for the
amended missing-capability claim). -/
def fsm_acquiring_noqueue2 : ChannelFsm :=
  { state := ChannelState.acquiring, acq_ := some 0, trk_ := some 1,
    queue_ := none, channel_ := 9, next_addr := 2 }

/-! ### Bit-reader lemmas -/

/-- A value shifted into the 64-bit accumulator is even. -/
theorem mod64_even (a : Nat) : a * 2 % 2 ^ 64 % 2 = 0 := by
  have h : (2 : Nat) ∣ a * 2 % 2 ^ 64 :=
    (Nat.dvd_mod_iff ⟨2 ^ 63, by norm_num⟩).mpr ⟨a, by ring⟩
  omega

/-- Folding the pure shift-and-insert step computes place values. -/
theorem natOfBits_aux (l : List Bool) (a : Nat) :
    l.foldl (fun a b => 2 * a + bitVal b) a = a * 2 ^ l.length + natOfBits l := by
  induction l generalizing a with
  | nil => simp [natOfBits]
  | cons b t ih =>
    show t.foldl _ (2 * a + bitVal b) = a * 2 ^ (t.length + 1) + natOfBits (b :: t)
    have h2 : natOfBits (b :: t) = bitVal b * 2 ^ t.length + natOfBits t := by
      show t.foldl _ (2 * 0 + bitVal b) = _
      rw [ih (2 * 0 + bitVal b)]; ring
    rw [ih (2 * a + bitVal b), h2]; ring

/-- Peeling the most significant bit off `natOfBits`. -/
theorem natOfBits_cons (b : Bool) (t : List Bool) :
    natOfBits (b :: t) = bitVal b * 2 ^ t.length + natOfBits t := by
  show t.foldl _ (2 * 0 + bitVal b) = _
  rw [natOfBits_aux t (2 * 0 + bitVal b)]; ring

/-- The value `natOfBits l` is bounded by the width. -/
theorem natOfBits_lt (l : List Bool) : natOfBits l < 2 ^ l.length := by
  induction l with
  | nil => simp [natOfBits]
  | cons b t ih =>
    have hp := Nat.one_le_two_pow (n := t.length)
    cases b <;> simp [natOfBits_cons, bitVal, pow_succ] <;> omega

/-- The wrapping accumulator fold computes the bit-list value modulo 2^64. -/
theorem foldl_bitStep (l : List Bool) (a : Nat) (ha : a < 2 ^ 64) :
    l.foldl bitStep a = (a * 2 ^ l.length + natOfBits l) % 2 ^ 64 := by
  induction l generalizing a with
  | nil => simpa [natOfBits] using (Nat.mod_eq_of_lt ha).symm
  | cons b t ih =>
    have hb : bitVal b ≤ 1 := by unfold bitVal; split <;> simp
    have heven := mod64_even a
    have hlt : a * 2 % 2 ^ 64 < 2 ^ 64 := Nat.mod_lt _ (by norm_num)
    have hstep : bitStep a b < 2 ^ 64 := by unfold bitStep; omega
    rw [List.foldl_cons, ih (bitStep a b) hstep]
    have h1 : bitStep a b ≡ a * 2 + bitVal b [MOD 2 ^ 64] :=
      Nat.ModEq.add_right _ (Nat.mod_modEq _ _)
    have h2 : bitStep a b * 2 ^ t.length + natOfBits t ≡
        (a * 2 + bitVal b) * 2 ^ t.length + natOfBits t [MOD 2 ^ 64] :=
      Nat.ModEq.add_right _ (Nat.ModEq.mul_right _ h1)
    calc (bitStep a b * 2 ^ t.length + natOfBits t) % 2 ^ 64
        = ((a * 2 + bitVal b) * 2 ^ t.length + natOfBits t) % 2 ^ 64 := h2
      _ = (a * 2 ^ (t.length + 1) + natOfBits (b :: t)) % 2 ^ 64 := by
          rw [natOfBits_cons]; congr 1; ring

/-- The nested slice fold of the readers is the flat fold over `fieldBits`. -/
theorem reads_foldl_aux (bits : Page) (parameter : List (Int × Int)) (a : Nat) :
    parameter.foldl
      (fun value p =>
        (List.range p.2.toNat).foldl
          (fun v (j : Nat) =>
            v * 2 % 2 ^ 64 + bitVal (bits (GPS_CNAV_DATA_PAGE_BITS - p.1 - (j : Int))))
          value) a
    = (fieldBits bits parameter).foldl bitStep a := by
  induction parameter generalizing a with
  | nil => rfl
  | cons p ps ih =>
    rw [List.foldl_cons, ih, fieldBits, List.foldl_append, sliceBits, List.foldl_map]
    rfl

/-- Length of the extracted bit list is the declared width. -/
theorem fieldBits_length (bits : Page) (parameter : List (Int × Int)) :
    (fieldBits bits parameter).length = totalWidth parameter := by
  induction parameter with
  | nil => rfl
  | cons p ps ih =>
    show (sliceBits bits p ++ fieldBits bits ps).length = totalWidth (p :: ps)
    rw [List.length_append, ih, sliceBits, List.length_map, List.length_range]
    simp [totalWidth]

/-- In-width unsigned reads never wrap: the value is `natOfBits` of the
extracted bits. -/
theorem read_navigation_unsigned_eq (bits : Page) (parameter : List (Int × Int))
    (h : totalWidth parameter ≤ 64) :
    read_navigation_unsigned bits parameter = natOfBits (fieldBits bits parameter) := by
  have h0 : read_navigation_unsigned bits parameter
      = (fieldBits bits parameter).foldl bitStep 0 := reads_foldl_aux bits parameter 0
  rw [h0, foldl_bitStep _ 0 (by norm_num)]
  have hlt : natOfBits (fieldBits bits parameter) < 2 ^ 64 :=
    lt_of_lt_of_le (natOfBits_lt _)
      (by rw [fieldBits_length]; exact Nat.pow_le_pow_right (by norm_num) h)
  simpa using Nat.mod_eq_of_lt hlt

/-- The signed reader's 64-bit pattern for a nonempty descriptor. -/
theorem pattern_eq (bits : Page) (s1 l1 : Int) (rest : List (Int × Int)) :
    read_navigation_signed_pattern bits ((s1, l1) :: rest)
      = ((if bits (GPS_CNAV_DATA_PAGE_BITS - s1) then 2 ^ 64 - 1 else 0)
          * 2 ^ totalWidth ((s1, l1) :: rest)
          + natOfBits (fieldBits bits ((s1, l1) :: rest))) % 2 ^ 64 := by
  have hinit : (if bits (GPS_CNAV_DATA_PAGE_BITS - s1) then 2 ^ 64 - 1 else (0 : Nat))
      < 2 ^ 64 := by split <;> norm_num
  show List.foldl _ _ _ = _
  simp only [mod64_even, Nat.sub_zero]
  rw [reads_foldl_aux, foldl_bitStep _ _ hinit, fieldBits_length]

/-- Two integers in `[-2^63, 2^63)` congruent mod 2^64 to the same pattern
are equal; identifies `toInt64` values. -/
theorem toInt64_eq_of_emod (v : Nat) (x : Int) (hv : v < 2 ^ 64)
    (h1 : -(2 ^ 63) ≤ x) (h2 : x < 2 ^ 63)
    (hc : (v : Int) % 2 ^ 64 = x % 2 ^ 64) : toInt64 v = x := by
  unfold toInt64; split <;> omega

/-- The first extracted bit of a nonempty descriptor is the page bit at the
first slice's start position. -/
theorem fieldBits_head (bits : Page) (s1 l1 : Int) (rest : List (Int × Int))
    (hl : 1 ≤ l1) :
    ∃ t, fieldBits bits ((s1, l1) :: rest)
      = bits (GPS_CNAV_DATA_PAGE_BITS - s1) :: t := by
  obtain ⟨k, hk⟩ : ∃ k, l1.toNat = k + 1 := ⟨l1.toNat - 1, by omega⟩
  refine ⟨(List.map Nat.succ (List.range k)).map
      (fun j : Nat => bits (GPS_CNAV_DATA_PAGE_BITS - s1 - (j : Int)))
      ++ fieldBits bits rest, ?_⟩
  show sliceBits bits (s1, l1) ++ fieldBits bits rest = _
  rw [sliceBits]
  simp only [hk, List.range_succ_eq_map, List.map_cons]
  simp

/-- Full characterization of the signed reader on a nonempty in-width
descriptor: its value is the unsigned read minus `2 ^ width` when the first
extracted bit is set, together with bounds on the unsigned read. -/
theorem read_signed_spec (bits : Page) (s1 l1 : Int) (rest : List (Int × Int))
    (hl : 1 ≤ l1) (hw : totalWidth ((s1, l1) :: rest) ≤ 64) :
    read_navigation_signed bits ((s1, l1) :: rest) =
      (read_navigation_unsigned bits ((s1, l1) :: rest) : Int) -
        (if bits (GPS_CNAV_DATA_PAGE_BITS - s1)
          then (2 : Int) ^ totalWidth ((s1, l1) :: rest) else 0) ∧
    read_navigation_unsigned bits ((s1, l1) :: rest)
      < 2 ^ totalWidth ((s1, l1) :: rest) ∧
    (bits (GPS_CNAV_DATA_PAGE_BITS - s1) = true →
      2 ^ (totalWidth ((s1, l1) :: rest) - 1)
        ≤ read_navigation_unsigned bits ((s1, l1) :: rest)) ∧
    (bits (GPS_CNAV_DATA_PAGE_BITS - s1) = false →
      read_navigation_unsigned bits ((s1, l1) :: rest)
        < 2 ^ (totalWidth ((s1, l1) :: rest) - 1)) := by
  obtain ⟨t, ht⟩ := fieldBits_head bits s1 l1 rest hl
  set par := (s1, l1) :: rest with hpar
  set n := totalWidth par with hn
  have hlen : (fieldBits bits par).length = n := fieldBits_length bits par
  have hn1 : n = t.length + 1 := by rw [← hlen, ht, List.length_cons]
  have hu : read_navigation_unsigned bits par = natOfBits (fieldBits bits par) :=
    read_navigation_unsigned_eq bits par hw
  have hcons : natOfBits (fieldBits bits par)
      = bitVal (bits (GPS_CNAV_DATA_PAGE_BITS - s1)) * 2 ^ t.length + natOfBits t := by
    rw [ht, natOfBits_cons]
  have hlt_t : natOfBits t < 2 ^ t.length := natOfBits_lt t
  have hbound : read_navigation_unsigned bits par < 2 ^ n := by
    rw [hu, ← hlen]; exact natOfBits_lt _
  have hhi : bits (GPS_CNAV_DATA_PAGE_BITS - s1) = true →
      2 ^ (n - 1) ≤ read_navigation_unsigned bits par := by
    intro hb
    rw [hu, hcons, hb]
    have : n - 1 = t.length := by omega
    rw [this]
    simp [bitVal]
  have hlo : bits (GPS_CNAV_DATA_PAGE_BITS - s1) = false →
      read_navigation_unsigned bits par < 2 ^ (n - 1) := by
    intro hb
    rw [hu, hcons, hb]
    have : n - 1 = t.length := by omega
    rw [this]
    simpa [bitVal] using hlt_t
  refine ⟨?_, hbound, hhi, hlo⟩
  have hpat := pattern_eq bits s1 l1 rest
  rw [← hpar, ← hn] at hpat
  have hpow_le : (2 : Nat) ^ n ≤ 2 ^ 64 := Nat.pow_le_pow_right (by norm_num) hw
  have hpow1_le : (2 : Nat) ^ (n - 1) ≤ 2 ^ 63 :=
    Nat.pow_le_pow_right (by norm_num) (by omega)
  have hnpos : 1 ≤ n := by omega
  show toInt64 (read_navigation_signed_pattern bits par) = _
  cases hb : bits (GPS_CNAV_DATA_PAGE_BITS - s1) with
  | false =>
    rw [hb] at hpat
    simp only [if_neg Bool.false_ne_true, ite_false] at hpat ⊢
    have hu64 : natOfBits (fieldBits bits par) < 2 ^ 64 := by
      rw [← hu]; omega
    rw [hpat]
    simp only [zero_mul, zero_add]
    rw [Nat.mod_eq_of_lt hu64]
    have hsmall : natOfBits (fieldBits bits par) < 2 ^ 63 := by
      have := hlo hb
      rw [hu] at this
      omega
    unfold toInt64
    rw [if_pos hsmall, hu]
    omega
  | true =>
    rw [hb] at hpat
    simp only [ite_true] at hpat ⊢
    set u := natOfBits (fieldBits bits par) with hudef
    have hu_ge : 2 ^ (n - 1) ≤ u := by rw [← hu]; exact hhi hb
    have hu_lt : u < 2 ^ n := by rw [← hu]; omega
    have hpow_split : (2 : Nat) ^ n = 2 * 2 ^ (n - 1) := by
      rw [← pow_succ']
      congr 1
      omega
    rw [hpat]
    apply toInt64_eq_of_emod
    · exact Nat.mod_lt _ (by norm_num)
    · rw [hu]
      have h1 : ((2 : Nat) ^ (n - 1) : Int) ≤ (u : Int) := by exact_mod_cast hu_ge
      have h2 : ((2 : Nat) ^ n : Int) = 2 * ((2 : Nat) ^ (n - 1) : Int) := by
        exact_mod_cast hpow_split
      have h3 : ((2 : Nat) ^ (n - 1) : Int) ≤ ((2 : Nat) ^ 63 : Int) := by
        exact_mod_cast hpow1_le
      have h4 : ((2 : Nat) ^ n : Int) = (2 : Int) ^ n := by norm_cast
      have h5 : ((2 : Nat) ^ 63 : Int) = (2 : Int) ^ 63 := by norm_cast
      rw [h4] at h2
      rw [h5] at h3
      linarith
    · rw [hu]
      have h1 : ((u : Int)) < (2 : Int) ^ n := by exact_mod_cast hu_lt
      have h2 : (0 : Int) < 2 ^ 63 := by positivity
      linarith
    · rw [hu, Int.natCast_mod]
      push_cast [Nat.one_le_two_pow]
      rw [Int.emod_emod_of_dvd _ dvd_rfl]
      have hring : (18446744073709551615 : Int) * 2 ^ n + (u : Int)
          = ((u : Int) - 2 ^ n) + 18446744073709551616 * 2 ^ n := by ring
      rw [hring, Int.add_mul_emod_self_left]

/-- Bit `k` of `(2^mm - 1) * 2^n + u` is set whenever `n ≤ k < n + mm` and
`u < 2^n` (the ones-block covers those positions). -/
theorem testBit_ones_mul_pow_add (mm n k u : Nat) (hu : u < 2 ^ n)
    (hk1 : n ≤ k) (hk2 : k < n + mm) :
    Nat.testBit ((2 ^ mm - 1) * 2 ^ n + u) k = true := by
  rw [Nat.testBit_to_div_mod]
  have hdiv1 : ((2 ^ mm - 1) * 2 ^ n + u) / 2 ^ k
      = (2 ^ mm - 1) / 2 ^ (k - n) := by
    have h2k : (2 : Nat) ^ k = 2 ^ n * 2 ^ (k - n) := by
      rw [← pow_add]; congr 1; omega
    rw [h2k, ← Nat.div_div_eq_div_mul]
    congr 1
    rw [Nat.mul_comm (2 ^ mm - 1) (2 ^ n), Nat.mul_add_div (Nat.two_pow_pos n),
      Nat.div_eq_of_lt hu, Nat.add_zero]
  rw [hdiv1]
  have hjm : k - n < mm := by omega
  have hsplit : (2 : Nat) ^ mm = 2 ^ (k - n) * 2 ^ (mm - (k - n)) := by
    rw [← pow_add]; congr 1; omega
  have h1 : (1 : Nat) ≤ 2 ^ (k - n) := Nat.one_le_two_pow
  have h2 : (1 : Nat) ≤ 2 ^ (mm - (k - n)) := Nat.one_le_two_pow
  have h3 : (1 : Nat) ≤ 2 ^ mm := Nat.one_le_two_pow
  have hdecomp : 2 ^ mm - 1
      = 2 ^ (k - n) * (2 ^ (mm - (k - n)) - 1) + (2 ^ (k - n) - 1) := by
    have hz : ((2 : Int) ^ (k - n)) * 2 ^ (mm - (k - n)) = 2 ^ mm := by
      exact_mod_cast hsplit.symm
    zify [h1, h2, h3]
    linear_combination -hz
  have hdiv2 : (2 ^ mm - 1) / 2 ^ (k - n) = 2 ^ (mm - (k - n)) - 1 := by
    rw [hdecomp, Nat.mul_add_div (Nat.two_pow_pos (k - n)),
      Nat.div_eq_of_lt (by omega), Nat.add_zero]
  rw [hdiv2]
  have hodd : (2 : Nat) ^ (mm - (k - n)) = 2 * 2 ^ (mm - (k - n) - 1) := by
    rw [← pow_succ']; congr 1; omega
  simp only [decide_eq_true_eq]
  omega

/-- Above the declared width, every bit of the signed reader's 64-bit
pattern equals the sign bit (the first extracted page bit). -/
theorem pattern_high_bits (bits : Page) (s1 l1 : Int) (rest : List (Int × Int))
    (hl : 1 ≤ l1) (hw : totalWidth ((s1, l1) :: rest) ≤ 64) (k : Nat)
    (hk1 : totalWidth ((s1, l1) :: rest) ≤ k) (hk2 : k < 64) :
    Nat.testBit (read_navigation_signed_pattern bits ((s1, l1) :: rest)) k
      = bits (GPS_CNAV_DATA_PAGE_BITS - s1) := by
  obtain ⟨heq, hbound, hhi, hlo⟩ := read_signed_spec bits s1 l1 rest hl hw
  set par := (s1, l1) :: rest with hpar
  set n := totalWidth par with hn
  have hpat := pattern_eq bits s1 l1 rest
  rw [← hpar, ← hn] at hpat
  have hu : read_navigation_unsigned bits par = natOfBits (fieldBits bits par) :=
    read_navigation_unsigned_eq bits par hw
  have hpow_le : (2 : Nat) ^ n ≤ 2 ^ 64 := Nat.pow_le_pow_right (by norm_num) hw
  cases hb : bits (GPS_CNAV_DATA_PAGE_BITS - s1) with
  | false =>
    rw [hb] at hpat
    simp only [if_neg Bool.false_ne_true, ite_false] at hpat
    have hulf : natOfBits (fieldBits bits par) < 2 ^ 64 := by rw [← hu]; omega
    rw [hpat]
    simp only [zero_mul, zero_add]
    rw [Nat.mod_eq_of_lt hulf]
    apply Nat.testBit_lt_two_pow
    have hk : (2 : Nat) ^ n ≤ 2 ^ k := Nat.pow_le_pow_right (by norm_num) hk1
    rw [← hu]; omega
  | true =>
    rw [hb] at hpat
    simp only [ite_true] at hpat
    set u := natOfBits (fieldBits bits par) with hudef
    have hu_lt : u < 2 ^ n := by rw [← hu]; omega
    have h1 : (1 : Nat) ≤ 2 ^ n := Nat.one_le_two_pow
    have h2 : (1 : Nat) ≤ 2 ^ (64 - n) := Nat.one_le_two_pow
    have h3 : (1 : Nat) ≤ 2 ^ 64 := Nat.one_le_two_pow
    have hsplit : (2 : Nat) ^ (64 - n) * 2 ^ n = 2 ^ 64 := by
      rw [← pow_add]; congr 1; omega
    have hsplitZ : ((2 : Int) ^ (64 - n)) * 2 ^ n = 2 ^ 64 := by
      exact_mod_cast hsplit
    have huZ : ((u : Int)) < 2 ^ n := by exact_mod_cast hu_lt
    have key : (2 ^ 64 - 1) * 2 ^ n + u
        = (2 ^ n - 1) * 2 ^ 64 + ((2 ^ (64 - n) - 1) * 2 ^ n + u) := by
      zify [h1, h2, h3]
      linear_combination -hsplitZ
    have hr_lt : (2 ^ (64 - n) - 1) * 2 ^ n + u < 2 ^ 64 := by
      zify [h2]
      linarith [hsplitZ, huZ]
    rw [hpat, key, Nat.mul_add_mod', Nat.mod_eq_of_lt hr_lt]
    exact testBit_ones_mul_pow_add (64 - n) n k u hu_lt hk1 (by omega)

/-! ### Decoder lemmas: dispatch shapes and the group-delay sentinel -/

/-- On a page whose msg_type reads 30, decode_page is the common-header write
followed by the type-30 case. -/
theorem decode_page_30 (m : Gps_CNAV_Navigation_Message) (bits : Page)
    (h : read_navigation_unsigned bits CNAV_MSG_TYPE = 30) :
    decode_page m bits = decode_type30 { m with
      d_TOW := (toInt32u (read_navigation_unsigned bits CNAV_TOW) : ℚ) * CNAV_TOW_LSB,
      ephemeris_record := { m.ephemeris_record with
        i_satellite_PRN := toInt32u (read_navigation_unsigned bits CNAV_PRN),
        d_TOW := (toInt32u (read_navigation_unsigned bits CNAV_TOW) : ℚ) * CNAV_TOW_LSB,
        b_alert_flag := read_navigation_bool bits CNAV_ALERT_FLAG } } bits := by
  have h30 : toInt32u (read_navigation_unsigned bits CNAV_MSG_TYPE) = 30 := by
    rw [h]; decide
  simp only [decode_page, h30]
  norm_num

/-- On a page whose msg_type reads 33, decode_page is the common-header write
followed by the type-33 case. -/
theorem decode_page_33 (m : Gps_CNAV_Navigation_Message) (bits : Page)
    (h : read_navigation_unsigned bits CNAV_MSG_TYPE = 33) :
    decode_page m bits = decode_type33 { m with
      d_TOW := (toInt32u (read_navigation_unsigned bits CNAV_TOW) : ℚ) * CNAV_TOW_LSB,
      ephemeris_record := { m.ephemeris_record with
        i_satellite_PRN := toInt32u (read_navigation_unsigned bits CNAV_PRN),
        d_TOW := (toInt32u (read_navigation_unsigned bits CNAV_TOW) : ℚ) * CNAV_TOW_LSB,
        b_alert_flag := read_navigation_bool bits CNAV_ALERT_FLAG } } bits := by
  have h33 : toInt32u (read_navigation_unsigned bits CNAV_MSG_TYPE) = 33 := by
    rw [h]; decide
  simp only [decode_page, h33]
  norm_num

/-- Signed read of a 13-bit field: sign-extension equation and range. -/
theorem read13_spec (bits : Page) (s1 : Int) :
    read_navigation_signed bits [(s1, 13)] =
      (read_navigation_unsigned bits [(s1, 13)] : Int) -
        (if bits (GPS_CNAV_DATA_PAGE_BITS - s1) then 8192 else 0) ∧
    -4096 ≤ read_navigation_signed bits [(s1, 13)] ∧
    read_navigation_signed bits [(s1, 13)] ≤ 4095 := by
  have htw : totalWidth [(s1, 13)] = 13 := rfl
  obtain ⟨heq, hbound, hhi, hlo⟩ :=
    read_signed_spec bits s1 13 [] (by norm_num) (by rw [htw]; norm_num)
  rw [htw] at heq hbound hhi hlo
  norm_num at heq hbound hhi hlo
  refine ⟨heq, ?_, ?_⟩ <;>
  · rw [heq]
    cases hb : bits (GPS_CNAV_DATA_PAGE_BITS - s1)
    · have h1 := hlo hb
      simp only [hb, if_neg Bool.false_ne_true, ite_false]
      omega
    · have h1 := hhi hb
      simp only [hb, ite_true]
      omega

/-- The guarded store of a group-delay field: 0 exactly at the sentinel,
the scaled signed read otherwise. -/
theorem gd_field_value (bits : Page) (s1 : Int) (lsb : ℚ) (stored : ℚ)
    (hst : stored =
      (if (read_navigation_signed bits [(s1, 13)] : ℚ) < -4095.9 then (0 : ℚ)
        else (read_navigation_signed bits [(s1, 13)] : ℚ)) * lsb) :
    (read_navigation_signed bits [(s1, 13)] = -4096 → stored = 0) ∧
    (read_navigation_signed bits [(s1, 13)] ≠ -4096 →
      stored = (read_navigation_signed bits [(s1, 13)] : ℚ) * lsb) := by
  obtain ⟨heq, hlo, hhi⟩ := read13_spec bits s1
  constructor
  · intro h
    rw [hst, h]
    norm_num
  · intro h
    have hge : -4095 ≤ read_navigation_signed bits [(s1, 13)] := by omega
    have hgeQ : (-4095 : ℚ) ≤ ((read_navigation_signed bits [(s1, 13)] : Int) : ℚ) := by
      exact_mod_cast hge
    rw [hst, if_neg (by
      have hlit : (-4095.9 : ℚ) < -4095 := by norm_num
      linarith)]

/-! ### Claims: CNAV decoder -/

/-- C1: on a Gps_CNAV_Navigation_Message with both ephemeris halves decoded,
have_new_ephemeris returns true and clears both ephemeris flags exactly when
the stored Toe1 equals the stored Toe2; on a mismatch it returns false and
leaves the whole state (flags and record) unchanged; with either flag clear
it returns false and changes nothing. -/
theorem c1_have_new_ephemeris (m : Gps_CNAV_Navigation_Message) :
    (m.b_flag_ephemeris_1 = true → m.b_flag_ephemeris_2 = true →
      m.ephemeris_record.d_Toe1 = m.ephemeris_record.d_Toe2 →
      have_new_ephemeris m =
        (true, { m with b_flag_ephemeris_1 := false, b_flag_ephemeris_2 := false })) ∧
    (m.b_flag_ephemeris_1 = true → m.b_flag_ephemeris_2 = true →
      m.ephemeris_record.d_Toe1 ≠ m.ephemeris_record.d_Toe2 →
      have_new_ephemeris m = (false, m)) ∧
    (¬(m.b_flag_ephemeris_1 = true ∧ m.b_flag_ephemeris_2 = true) →
      have_new_ephemeris m = (false, m)) := by
  unfold have_new_ephemeris
  refine ⟨?_, ?_, ?_⟩
  · intro h1 h2 h3
    rw [if_pos ⟨h1, h2⟩, if_pos h3]
  · intro h1 h2 h3
    rw [if_pos ⟨h1, h2⟩, if_neg h3]
  · intro h
    rw [if_neg h]

/-- Witness for C1: a matching pair publishes and clears both flags, a
mismatching pair and a half-decoded record do not and leave the state as is. -/
theorem c1_have_new_ephemeris_witness :
    have_new_ephemeris m_match =
      (true, { m_match with b_flag_ephemeris_1 := false, b_flag_ephemeris_2 := false }) ∧
    have_new_ephemeris m_mismatch = (false, m_mismatch) ∧
    have_new_ephemeris m_half = (false, m_half) :=
  ⟨(c1_have_new_ephemeris m_match).1 rfl rfl (by decide),
   (c1_have_new_ephemeris m_mismatch).2.1 rfl rfl (by decide),
   (c1_have_new_ephemeris m_half).2.2 (by decide)⟩

/-- C3: in decode_page of a type-30 page, each of the five group-delay fields
TGD, ISCL1, ISCL2, ISCL5I, ISCL5Q stores exactly 0.0 when its 13-bit signed
read is the sentinel −4096 (the `< −4095.9` check runs before the LSB
scaling), and stores the signed read times the field's LSB (applied once)
for every other value. -/
theorem c3_group_delay_sentinel (m : Gps_CNAV_Navigation_Message) (bits : Page)
    (h30 : read_navigation_unsigned bits CNAV_MSG_TYPE = 30) :
    ((read_navigation_signed bits CNAV_TGD = -4096 →
        (decode_page m bits).ephemeris_record.d_TGD = 0) ∧
      (read_navigation_signed bits CNAV_TGD ≠ -4096 →
        (decode_page m bits).ephemeris_record.d_TGD
          = (read_navigation_signed bits CNAV_TGD : ℚ) * CNAV_TGD_LSB)) ∧
    ((read_navigation_signed bits CNAV_ISCL1 = -4096 →
        (decode_page m bits).ephemeris_record.d_ISCL1 = 0) ∧
      (read_navigation_signed bits CNAV_ISCL1 ≠ -4096 →
        (decode_page m bits).ephemeris_record.d_ISCL1
          = (read_navigation_signed bits CNAV_ISCL1 : ℚ) * CNAV_ISCL1_LSB)) ∧
    ((read_navigation_signed bits CNAV_ISCL2 = -4096 →
        (decode_page m bits).ephemeris_record.d_ISCL2 = 0) ∧
      (read_navigation_signed bits CNAV_ISCL2 ≠ -4096 →
        (decode_page m bits).ephemeris_record.d_ISCL2
          = (read_navigation_signed bits CNAV_ISCL2 : ℚ) * CNAV_ISCL2_LSB)) ∧
    ((read_navigation_signed bits CNAV_ISCL5I = -4096 →
        (decode_page m bits).ephemeris_record.d_ISCL5I = 0) ∧
      (read_navigation_signed bits CNAV_ISCL5I ≠ -4096 →
        (decode_page m bits).ephemeris_record.d_ISCL5I
          = (read_navigation_signed bits CNAV_ISCL5I : ℚ) * CNAV_ISCL5I_LSB)) ∧
    ((read_navigation_signed bits CNAV_ISCL5Q = -4096 →
        (decode_page m bits).ephemeris_record.d_ISCL5Q = 0) ∧
      (read_navigation_signed bits CNAV_ISCL5Q ≠ -4096 →
        (decode_page m bits).ephemeris_record.d_ISCL5Q
          = (read_navigation_signed bits CNAV_ISCL5Q : ℚ) * CNAV_ISCL5Q_LSB)) := by
  rw [decode_page_30 m bits h30]
  exact ⟨gd_field_value bits 128 CNAV_TGD_LSB _ rfl,
    gd_field_value bits 141 CNAV_ISCL1_LSB _ rfl,
    gd_field_value bits 154 CNAV_ISCL2_LSB _ rfl,
    gd_field_value bits 167 CNAV_ISCL5I_LSB _ rfl,
    gd_field_value bits 180 CNAV_ISCL5Q_LSB _ rfl⟩

/-- Witness for C3: on a concrete type-30 page whose TGD field is the
sentinel, the stored TGD is exactly 0; its ISCL1 field reads 0 (not the
sentinel), so ISCL1 stores the scaled read. -/
theorem c3_group_delay_sentinel_witness :
    (decode_page m_prn5 page30a).ephemeris_record.d_TGD = 0 ∧
    (decode_page m_prn5 page30a).ephemeris_record.d_ISCL1
      = (read_navigation_signed page30a CNAV_ISCL1 : ℚ) * CNAV_ISCL1_LSB :=
  ⟨((c3_group_delay_sentinel m_prn5 page30a (by decide)).1).1 (by decide),
   ((c3_group_delay_sentinel m_prn5 page30a (by decide)).2.1).2 (by decide)⟩

/-- C4 counterexample: a 300-bit page with unrecognized msg_type 0 still
overwrites the common header (PRN 5 becomes 0), so the decoder state after
decode_page differs from the state before, contrary to the claim. -/
theorem c4_counterexample_state_changes :
    toInt32u (read_navigation_unsigned page_zero CNAV_MSG_TYPE) = 0 ∧
    decode_page m_prn5 page_zero ≠ m_prn5 := by
  refine ⟨by decide, ?_⟩
  intro h
  have h2 : (decode_page m_prn5 page_zero).ephemeris_record.i_satellite_PRN
      = m_prn5.ephemeris_record.i_satellite_PRN := by rw [h]
  revert h2
  decide

/-- C4 (amended): for every 300-bit page whose msg_type is none of 10, 11,
30, 33, decode_page changes nothing except the always-written common header
fields (satellite PRN, scaled TOW — message-level and in the ephemeris
record — and the alert flag); all four freshness flags and the iono and UTC
records are unchanged. -/
theorem c4_unknown_type (m : Gps_CNAV_Navigation_Message) (bits : Page)
    (h10 : toInt32u (read_navigation_unsigned bits CNAV_MSG_TYPE) ≠ 10)
    (h11 : toInt32u (read_navigation_unsigned bits CNAV_MSG_TYPE) ≠ 11)
    (h30 : toInt32u (read_navigation_unsigned bits CNAV_MSG_TYPE) ≠ 30)
    (h33 : toInt32u (read_navigation_unsigned bits CNAV_MSG_TYPE) ≠ 33) :
    decode_page m bits = { m with
      d_TOW := (toInt32u (read_navigation_unsigned bits CNAV_TOW) : ℚ) * CNAV_TOW_LSB,
      ephemeris_record := { m.ephemeris_record with
        i_satellite_PRN := toInt32u (read_navigation_unsigned bits CNAV_PRN),
        d_TOW := (toInt32u (read_navigation_unsigned bits CNAV_TOW) : ℚ) * CNAV_TOW_LSB,
        b_alert_flag := read_navigation_bool bits CNAV_ALERT_FLAG } } ∧
    (decode_page m bits).b_flag_ephemeris_1 = m.b_flag_ephemeris_1 ∧
    (decode_page m bits).b_flag_ephemeris_2 = m.b_flag_ephemeris_2 ∧
    (decode_page m bits).b_flag_iono_valid = m.b_flag_iono_valid ∧
    (decode_page m bits).b_flag_utc_valid = m.b_flag_utc_valid ∧
    (decode_page m bits).iono_record = m.iono_record ∧
    (decode_page m bits).utc_model_record = m.utc_model_record := by
  have hmain : decode_page m bits = { m with
      d_TOW := (toInt32u (read_navigation_unsigned bits CNAV_TOW) : ℚ) * CNAV_TOW_LSB,
      ephemeris_record := { m.ephemeris_record with
        i_satellite_PRN := toInt32u (read_navigation_unsigned bits CNAV_PRN),
        d_TOW := (toInt32u (read_navigation_unsigned bits CNAV_TOW) : ℚ) * CNAV_TOW_LSB,
        b_alert_flag := read_navigation_bool bits CNAV_ALERT_FLAG } } := by
    simp only [decode_page, if_neg h10, if_neg h11, if_neg h30, if_neg h33]
  exact ⟨hmain, by rw [hmain], by rw [hmain], by rw [hmain], by rw [hmain],
    by rw [hmain], by rw [hmain]⟩

/-- Witness for the amended C4 at the all-zero page (msg_type 0). -/
theorem c4_unknown_type_witness :
    decode_page m_prn5 page_zero = { m_prn5 with
      d_TOW := (toInt32u (read_navigation_unsigned page_zero CNAV_TOW) : ℚ) * CNAV_TOW_LSB,
      ephemeris_record := { m_prn5.ephemeris_record with
        i_satellite_PRN := toInt32u (read_navigation_unsigned page_zero CNAV_PRN),
        d_TOW := (toInt32u (read_navigation_unsigned page_zero CNAV_TOW) : ℚ) * CNAV_TOW_LSB,
        b_alert_flag := read_navigation_bool page_zero CNAV_ALERT_FLAG } } ∧
    (decode_page m_prn5 page_zero).b_flag_iono_valid = m_prn5.b_flag_iono_valid :=
  ⟨(c4_unknown_type m_prn5 page_zero (by decide) (by decide) (by decide) (by decide)).1,
   (c4_unknown_type m_prn5 page_zero (by decide) (by decide) (by decide)
      (by decide)).2.2.2.1⟩

/-- C6: for every 300-bit page and every in-page field descriptor of total
width at most 64, read_navigation_signed equals read_navigation_unsigned
minus 2^width when the first extracted bit B[s1] is 1 and equals
read_navigation_unsigned when it is 0; equivalently the result is the
two's-complement value, sign-extended: every pattern bit above the declared
width equals the sign bit. -/
theorem c6_read_signed (bits : Page) (parameter : List (Int × Int))
    (s1 l1 : Int) (rest : List (Int × Int)) (hp : parameter = (s1, l1) :: rest)
    (hin : ∀ q ∈ parameter, 1 ≤ q.1 ∧ 1 ≤ q.2 ∧ q.1 + q.2 ≤ 301)
    (hw : totalWidth parameter ≤ 64) :
    read_navigation_signed bits parameter =
      (read_navigation_unsigned bits parameter : Int) -
        (if bits (GPS_CNAV_DATA_PAGE_BITS - s1)
          then (2 : Int) ^ totalWidth parameter else 0) ∧
    (∀ k : Nat, totalWidth parameter ≤ k → k < 64 →
      Nat.testBit (read_navigation_signed_pattern bits parameter) k
        = bits (GPS_CNAV_DATA_PAGE_BITS - s1)) := by
  subst hp
  have hl : 1 ≤ l1 := (hin (s1, l1) (List.mem_cons_self _ _)).2.1
  exact ⟨(read_signed_spec bits s1 l1 rest hl hw).1,
    fun k hk1 hk2 => pattern_high_bits bits s1 l1 rest hl hw k hk1 hk2⟩

/-- Witness for C6: a 13-bit field at the start of a page whose only set bit
is the sign bit; the signed read is the unsigned read (4096) minus 2^13,
i.e. −4096, and bit 63 of the pattern is the sign bit. -/
theorem c6_read_signed_witness :
    read_navigation_signed page_msb [((1 : Int), (13 : Int))] =
      (read_navigation_unsigned page_msb [((1 : Int), (13 : Int))] : Int) -
        (if page_msb (GPS_CNAV_DATA_PAGE_BITS - 1)
          then (2 : Int) ^ totalWidth [((1 : Int), (13 : Int))] else 0) ∧
    Nat.testBit (read_navigation_signed_pattern page_msb [((1 : Int), (13 : Int))]) 63
      = page_msb (GPS_CNAV_DATA_PAGE_BITS - 1) ∧
    read_navigation_signed page_msb [((1 : Int), (13 : Int))] = -4096 ∧
    read_navigation_unsigned page_msb [((1 : Int), (13 : Int))] = 4096 := by
  have h := c6_read_signed page_msb [(1, 13)] 1 13 [] rfl (by decide) (by decide)
  exact ⟨h.1, h.2 63 (by decide) (by decide), by decide, by decide⟩

/-- C9: have_new_iono and have_new_utc_model return true and clear their
freshness flag when it is set, and return false leaving the decoder state
unchanged when it is clear; hence after one decoded page of type 30 (iono)
or 33 (UTC) two consecutive calls return true then false; get_utc_model
returns the UTC record with valid set to true. -/
theorem c9_have_new_iono_utc (m : Gps_CNAV_Navigation_Message) (bits : Page) :
    (m.b_flag_iono_valid = true →
      have_new_iono m = (true, { m with b_flag_iono_valid := false })) ∧
    (m.b_flag_iono_valid = false → have_new_iono m = (false, m)) ∧
    (m.b_flag_utc_valid = true →
      have_new_utc_model m = (true, { m with b_flag_utc_valid := false })) ∧
    (m.b_flag_utc_valid = false → have_new_utc_model m = (false, m)) ∧
    (read_navigation_unsigned bits CNAV_MSG_TYPE = 30 →
      (have_new_iono (decode_page m bits)).1 = true ∧
      (have_new_iono (have_new_iono (decode_page m bits)).2).1 = false) ∧
    (read_navigation_unsigned bits CNAV_MSG_TYPE = 33 →
      (have_new_utc_model (decode_page m bits)).1 = true ∧
      (have_new_utc_model (have_new_utc_model (decode_page m bits)).2).1 = false) ∧
    (get_utc_model m).1.valid = true := by
  refine ⟨?_, ?_, ?_, ?_, ?_, ?_, rfl⟩
  · intro h
    unfold have_new_iono
    rw [if_pos h]
  · intro h
    unfold have_new_iono
    rw [if_neg (by simp [h])]
  · intro h
    unfold have_new_utc_model
    rw [if_pos h]
  · intro h
    unfold have_new_utc_model
    rw [if_neg (by simp [h])]
  · intro h30
    have hf : (decode_page m bits).b_flag_iono_valid = true := by
      rw [decode_page_30 m bits h30]; rfl
    constructor
    · unfold have_new_iono
      rw [if_pos hf]
    · unfold have_new_iono
      rw [if_pos hf]
      simp
  · intro h33
    have hf : (decode_page m bits).b_flag_utc_valid = true := by
      rw [decode_page_33 m bits h33]; rfl
    constructor
    · unfold have_new_utc_model
      rw [if_pos hf]
    · unfold have_new_utc_model
      rw [if_pos hf]
      simp

/-- Witness for C9: concrete freshness flags publish once; after a concrete
type-33 page two consecutive have_new_utc_model calls give true then false;
get_utc_model returns valid = true. -/
theorem c9_have_new_iono_utc_witness :
    have_new_iono m_fresh = (true, { m_fresh with b_flag_iono_valid := false }) ∧
    (have_new_utc_model (decode_page m_prn5 page33a)).1 = true ∧
    (have_new_utc_model (have_new_utc_model (decode_page m_prn5 page33a)).2).1 = false ∧
    (get_utc_model m_fresh).1.valid = true := by
  have h := c9_have_new_iono_utc m_prn5 page33a
  have h2 := c9_have_new_iono_utc m_fresh page_zero
  have h33 : read_navigation_unsigned page33a CNAV_MSG_TYPE = 33 := by decide
  exact ⟨h2.1 rfl, (h.2.2.2.2.2.1 h33).1, (h.2.2.2.2.2.1 h33).2, h2.2.2.2.2.2.2⟩

/-- C10: every decode_page call, for every 300-bit page and regardless of the
msg_type (recognized or not), overwrites the common header of the stored
ephemeris record before dispatching: satellite PRN, TOW count scaled by its
LSB (also stored at message level) and the alert flag. -/
theorem c10_common_header (m : Gps_CNAV_Navigation_Message) (bits : Page) :
    (decode_page m bits).ephemeris_record.i_satellite_PRN
      = toInt32u (read_navigation_unsigned bits CNAV_PRN) ∧
    (decode_page m bits).ephemeris_record.d_TOW
      = (toInt32u (read_navigation_unsigned bits CNAV_TOW) : ℚ) * CNAV_TOW_LSB ∧
    (decode_page m bits).d_TOW
      = (toInt32u (read_navigation_unsigned bits CNAV_TOW) : ℚ) * CNAV_TOW_LSB ∧
    (decode_page m bits).ephemeris_record.b_alert_flag
      = read_navigation_bool bits CNAV_ALERT_FLAG := by
  refine ⟨?_, ?_, ?_, ?_⟩ <;>
  · simp only [decode_page]
    split
    · rfl
    · split
      · rfl
      · split
        · rfl
        · split <;> rfl

/-! ### Claims: channel FSM -/

/-- C2: with capabilities and a (well-formed) queue bound, the FSM starts in
IDLE at construction and observes exactly the transition table:
IDLE+start→ACQUIRING; ACQUIRING+valid→TRACKING,
ACQUIRING+failed_repeat→ACQUIRING (re-running the ACQUIRING entry action),
ACQUIRING+failed_no_repeat→WAITING; TRACKING+start→ACQUIRING,
TRACKING+failed_tracking_standby→IDLE; WAITING+start→ACQUIRING; every other
(state, event) pair leaves the state unchanged with no side effect. -/
theorem c2_transition_table (f : ChannelFsm)
    (ha : ∃ x, f.acq_ = some x) (ht : ∃ x, f.trk_ = some x)
    (hq : ∃ x, f.queue_ = some x ∧ x < f.next_addr) :
    (f.state = ChannelState.idle →
      f.process_event ChannelEvent.start_acquisition =
        Except.ok ({ f with state := ChannelState.acquiring },
          [ControlAction.acq_reset]) ∧
      f.process_event ChannelEvent.valid_acquisition = Except.ok (f, []) ∧
      f.process_event ChannelEvent.failed_acquisition_repeat = Except.ok (f, []) ∧
      f.process_event ChannelEvent.failed_acquisition_no_repeat = Except.ok (f, []) ∧
      f.process_event ChannelEvent.failed_tracking_standby = Except.ok (f, [])) ∧
    (f.state = ChannelState.acquiring →
      f.process_event ChannelEvent.start_acquisition = Except.ok (f, []) ∧
      f.process_event ChannelEvent.valid_acquisition =
        Except.ok ({ f with state := ChannelState.tracking, next_addr := f.next_addr + 1 },
          [ControlAction.trk_start_tracking, ControlAction.queue_msg f.channel_ 1]) ∧
      f.process_event ChannelEvent.failed_acquisition_repeat =
        Except.ok ({ f with state := ChannelState.acquiring },
          [ControlAction.acq_reset]) ∧
      f.process_event ChannelEvent.failed_acquisition_no_repeat =
        Except.ok ({ f with state := ChannelState.waiting, next_addr := f.next_addr + 1 },
          [ControlAction.queue_msg f.channel_ 0]) ∧
      f.process_event ChannelEvent.failed_tracking_standby = Except.ok (f, [])) ∧
    (f.state = ChannelState.tracking →
      f.process_event ChannelEvent.start_acquisition =
        Except.ok ({ f with state := ChannelState.acquiring, next_addr := f.next_addr + 1 },
          [ControlAction.queue_msg f.channel_ 2, ControlAction.acq_reset]) ∧
      f.process_event ChannelEvent.valid_acquisition = Except.ok (f, []) ∧
      f.process_event ChannelEvent.failed_acquisition_repeat = Except.ok (f, []) ∧
      f.process_event ChannelEvent.failed_acquisition_no_repeat = Except.ok (f, []) ∧
      f.process_event ChannelEvent.failed_tracking_standby =
        Except.ok ({ f with state := ChannelState.idle, next_addr := f.next_addr + 1 },
          [ControlAction.queue_msg f.channel_ 2])) ∧
    (f.state = ChannelState.waiting →
      f.process_event ChannelEvent.start_acquisition =
        Except.ok ({ f with state := ChannelState.acquiring },
          [ControlAction.acq_reset]) ∧
      f.process_event ChannelEvent.valid_acquisition = Except.ok (f, []) ∧
      f.process_event ChannelEvent.failed_acquisition_repeat = Except.ok (f, []) ∧
      f.process_event ChannelEvent.failed_acquisition_no_repeat = Except.ok (f, []) ∧
      f.process_event ChannelEvent.failed_tracking_standby = Except.ok (f, [])) ∧
    ChannelFsm.new.state = ChannelState.idle := by
  obtain ⟨a, ha⟩ := ha
  obtain ⟨b, hb⟩ := ht
  obtain ⟨q, hq, hqlt⟩ := hq
  have hqne : f.queue_ ≠ some f.next_addr := by
    rw [hq]
    intro hcontra
    have := Option.some.inj hcontra
    omega
  refine ⟨?_, ?_, ?_, ?_, rfl⟩ <;> intro hs <;>
    refine ⟨?_, ?_, ?_, ?_, ?_⟩ <;>
    simp [ChannelFsm.process_event, hs, ChannelFsm.transition_to,
      ChannelFsm.exit_action, ChannelFsm.entry_action,
      ChannelFsm.start_acquisition, ChannelFsm.start_tracking,
      ChannelFsm.request_satellite, ChannelFsm.notify_stop_tracking,
      gr_msg_queue_make, ha, hb, hq, hqne, Nat.ne_of_lt hqlt]

/-- Witness for C2 at a concrete fully-bound FSM in IDLE. -/
theorem c2_transition_table_witness :
    ChannelFsm.process_event fsm_idle_bound ChannelEvent.start_acquisition =
      Except.ok ({ fsm_idle_bound with state := ChannelState.acquiring },
        [ControlAction.acq_reset]) ∧
    ChannelFsm.process_event fsm_idle_bound ChannelEvent.valid_acquisition =
      Except.ok (fsm_idle_bound, []) ∧
    ChannelFsm.new.state = ChannelState.idle := by
  have h := c2_transition_table fsm_idle_bound ⟨0, rfl⟩ ⟨1, rfl⟩ ⟨2, rfl, by decide⟩
  exact ⟨(h.1 rfl).1, (h.1 rfl).2.1, h.2.2.2.2⟩

/-- C5 (the code as written): the dispatch-queue guard
`queue_ != gr::msg_queue::make()` compares against a freshly allocated
queue, so it never suppresses the send; with no queue bound, the TRACKING
entry action dereferences the null queue handle and crashes instead of
silently skipping the message. -/
theorem c5_unbound_queue_null_deref :
    fsm_acquiring_noqueue.queue_ = none ∧
    ChannelFsm.process_event fsm_acquiring_noqueue ChannelEvent.valid_acquisition
      = Except.error CrashKind.null_deref :=
  ⟨rfl, rfl⟩

/-- C7: the entry and exit actions produce exactly the claimed effects in
order: ACQUIRING entry runs acquisition.reset(); TRACKING entry runs
tracking.start_tracking() then enqueues (channel_id, 1); TRACKING exit
enqueues (channel_id, 2); WAITING entry enqueues (channel_id, 0); IDLE has
no entry or exit action; and a TRACKING→ACQUIRING event returns after the
exit action ran before the entry action. -/
theorem c7_entry_exit_actions (f : ChannelFsm)
    (ha : ∃ x, f.acq_ = some x) (ht : ∃ x, f.trk_ = some x)
    (hq : ∃ x, f.queue_ = some x ∧ x < f.next_addr) :
    f.entry_action ChannelState.acquiring =
      Except.ok ([ControlAction.acq_reset], f.next_addr) ∧
    f.entry_action ChannelState.tracking =
      Except.ok ([ControlAction.trk_start_tracking,
        ControlAction.queue_msg f.channel_ 1], f.next_addr + 1) ∧
    f.exit_action ChannelState.tracking =
      Except.ok ([ControlAction.queue_msg f.channel_ 2], f.next_addr + 1) ∧
    f.entry_action ChannelState.waiting =
      Except.ok ([ControlAction.queue_msg f.channel_ 0], f.next_addr + 1) ∧
    f.entry_action ChannelState.idle = Except.ok ([], f.next_addr) ∧
    f.exit_action ChannelState.idle = Except.ok ([], f.next_addr) ∧
    f.exit_action ChannelState.acquiring = Except.ok ([], f.next_addr) ∧
    f.exit_action ChannelState.waiting = Except.ok ([], f.next_addr) ∧
    (f.state = ChannelState.tracking →
      f.process_event ChannelEvent.start_acquisition =
        Except.ok ({ f with state := ChannelState.acquiring, next_addr := f.next_addr + 1 },
          [ControlAction.queue_msg f.channel_ 2, ControlAction.acq_reset])) := by
  obtain ⟨a, ha⟩ := ha
  obtain ⟨b, hb⟩ := ht
  obtain ⟨q, hq, hqlt⟩ := hq
  have hqne : f.queue_ ≠ some f.next_addr := by
    rw [hq]
    intro hcontra
    have := Option.some.inj hcontra
    omega
  refine ⟨?_, ?_, ?_, ?_, rfl, rfl, rfl, rfl, ?_⟩
  · simp [ChannelFsm.entry_action, ChannelFsm.start_acquisition, ha]
  · simp [ChannelFsm.entry_action, ChannelFsm.start_tracking,
      gr_msg_queue_make, hb, hq, hqne, Nat.ne_of_lt hqlt]
  · simp [ChannelFsm.exit_action, ChannelFsm.notify_stop_tracking,
      gr_msg_queue_make, hq, hqne, Nat.ne_of_lt hqlt]
  · simp [ChannelFsm.entry_action, ChannelFsm.request_satellite,
      gr_msg_queue_make, hq, hqne, Nat.ne_of_lt hqlt]
  · intro hs
    simp [ChannelFsm.process_event, hs, ChannelFsm.transition_to,
      ChannelFsm.exit_action, ChannelFsm.entry_action,
      ChannelFsm.start_acquisition, ChannelFsm.start_tracking,
      ChannelFsm.request_satellite, ChannelFsm.notify_stop_tracking,
      gr_msg_queue_make, ha, hb, hq, hqne, Nat.ne_of_lt hqlt]

/-- Witness for C7 at a concrete fully-bound FSM in TRACKING. -/
theorem c7_entry_exit_actions_witness :
    ChannelFsm.entry_action fsm_tracking_bound ChannelState.tracking =
      Except.ok ([ControlAction.trk_start_tracking, ControlAction.queue_msg 7 1], 4) ∧
    ChannelFsm.exit_action fsm_tracking_bound ChannelState.tracking =
      Except.ok ([ControlAction.queue_msg 7 2], 4) ∧
    ChannelFsm.process_event fsm_tracking_bound ChannelEvent.start_acquisition =
      Except.ok ({ fsm_tracking_bound with state := ChannelState.acquiring, next_addr := 4 },
        [ControlAction.queue_msg 7 2, ControlAction.acq_reset]) := by
  have h := c7_entry_exit_actions fsm_tracking_bound ⟨0, rfl⟩ ⟨1, rfl⟩ ⟨2, rfl, by decide⟩
  exact ⟨h.2.1, h.2.2.1, h.2.2.2.2.2.2.2.2 rfl⟩

/-- C8 counterexample: invoking an entry action with its capability unbound
produces the very same null-dereference failure as running a
message-emitting action with the dispatch queue unbound — there is no
distinct MissingCapability error and no post-event (reverted) state. -/
theorem c8_missing_capability_counterexample :
    fsm_idle_noacq.acq_ = none ∧
    ChannelFsm.process_event fsm_idle_noacq ChannelEvent.start_acquisition
      = Except.error CrashKind.null_deref ∧
    ChannelFsm.process_event fsm_acquiring_notrk ChannelEvent.valid_acquisition
      = Except.error CrashKind.null_deref ∧
    fsm_acquiring_noqueue2.queue_ = none ∧
    ChannelFsm.process_event fsm_acquiring_noqueue2 ChannelEvent.valid_acquisition
      = Except.error CrashKind.null_deref :=
  ⟨rfl, rfl, rfl, rfl, rfl⟩

/-- C8 (amended): an entry action invoked with its required capability
unbound dereferences the null provider, so the event call fails with the
null-dereference crash (no distinct error kind, no completed post-event
state); an unbound dispatch queue produces the same null-dereference crash
in the message-emitting entry actions, because the guard
`queue_ != gr::msg_queue::make()` never suppresses the send. -/
theorem c8_missing_capability (f : ChannelFsm) :
    (f.state = ChannelState.idle → f.acq_ = none →
      f.process_event ChannelEvent.start_acquisition
        = Except.error CrashKind.null_deref) ∧
    (f.state = ChannelState.acquiring → f.trk_ = none →
      f.process_event ChannelEvent.valid_acquisition
        = Except.error CrashKind.null_deref) ∧
    (f.state = ChannelState.acquiring → f.trk_ ≠ none → f.queue_ = none →
      f.process_event ChannelEvent.valid_acquisition
        = Except.error CrashKind.null_deref) := by
  refine ⟨?_, ?_, ?_⟩
  · intro hs hacq
    simp [ChannelFsm.process_event, hs, ChannelFsm.transition_to,
      ChannelFsm.exit_action, ChannelFsm.entry_action,
      ChannelFsm.start_acquisition, hacq]
  · intro hs htrk
    simp [ChannelFsm.process_event, hs, ChannelFsm.transition_to,
      ChannelFsm.exit_action, ChannelFsm.entry_action,
      ChannelFsm.start_tracking, htrk]
  · intro hs htrk hqueue
    obtain ⟨b, hb⟩ : ∃ x, f.trk_ = some x := by
      cases hcase : f.trk_ with
      | none => exact absurd hcase htrk
      | some x => exact ⟨x, rfl⟩
    simp [ChannelFsm.process_event, hs, ChannelFsm.transition_to,
      ChannelFsm.exit_action, ChannelFsm.entry_action,
      ChannelFsm.start_tracking, hb, hqueue, gr_msg_queue_make]

/-- Witness for the amended C8 at concrete unbound configurations. -/
theorem c8_missing_capability_witness :
    ChannelFsm.process_event fsm_idle_noacq ChannelEvent.start_acquisition
      = Except.error CrashKind.null_deref ∧
    ChannelFsm.process_event fsm_acquiring_notrk ChannelEvent.valid_acquisition
      = Except.error CrashKind.null_deref :=
  ⟨(c8_missing_capability fsm_idle_noacq).1 rfl rfl,
   (c8_missing_capability fsm_acquiring_notrk).2.1 rfl rfl⟩
